import Mathlib

/-!
# Verification of the Huemelody control core (`src/src/Huemelody.ino`)

A shallow embedding of the input-arbitration / interaction state machine of the
Huemelody firmware.  State variables of the sketch become fields of
`DeviceState`; each tick's hardware reads (button level, encoder phases,
`millis()`, the classifier outcome, SD/audio collaborator results) are supplied
through a `TickEnv` record.  Machine integers: `millis()` values are modelled as
`Nat` (the sketch relies on monotone `unsigned long` differences), the `uint8_t`
color counters wrap explicitly with `% 256`, `int` volume is `Int`.

Emitted side effects (playback requests, stop, mode switch, the detection
toggle, volume changes, track navigation, sleep entry) are collected in a
`List Event` so that the spec's "intents" are observable.

The threshold tables `colorThresholds`, `daliColors` … `vinciColors` and the
helpers `getBaseColorName`, `getColorFamilyIndex`, `checkColorAndPlayAudio`,
`playNextTrack`, `playPreviousTrack` are referenced by the sketch but their
definitions are not among the provided sources; where a claim needs them they
are modelled from the spec (marked `Modelled from the spec:` below), and track
navigation is modelled as the emitted intent alone (spec §4.2).
-/

set_option maxHeartbeats 1000000

namespace Huemelody

/-- Operation modes (`enum OperationMode`, Huemelody.ino lines 68-71). -/
inductive OperationMode where
  | colorRecognition
  | painterCollection
deriving DecidableEq, Repr

/-- Observable side effects of one tick.  `stopSong` is `audio.stopSong()`;
`connect f` is an `audio.connecttoFS(SD, f)` attempt; `audioRequest f` marks a
`playAudio`-level playback request of asset `f` (spec §1: "request playback of
named asset" semantics); `sleepRequested` is `prepareForSleep`/`enterDeepSleep`;
`modeSwitched` marks `switchMode` running; `toggleDetection` marks the
short-press detection toggle; `setVol v` is `audio.setVolume(v)`;
`nextTrack`/`prevTrack` are the track-navigation intents (`playNextTrack` /
`playPreviousTrack`, absent from the sources, modelled as intents per
spec §4.2); `blinkE n` is `blinkLEDs(n)`. -/
inductive Event where
  | stopSong
  | connect (file : String)
  | audioRequest (file : String)
  | sleepRequested
  | modeSwitched
  | toggleDetection
  | setVol (v : Int)
  | nextTrack
  | prevTrack
  | blinkE (n : Nat)
deriving DecidableEq, Repr

/-- Button timing constants (lines 46-49). -/
def MODE_SWITCH_PRESS_DURATION : Nat := 3000

def SLEEP_PRESS_DURATION : Nat := 5000

def ROTATION_DEBOUNCE : Nat := 10

def TRACK_NAVIGATION_DEBOUNCE : Nat := 100

/-- Audio and volume constants (lines 52-55). -/
def MIN_VOLUME : Int := 0

def MAX_VOLUME : Int := 21

def VOLUME_STEP : Int := 1

/-- Color recognition constants (lines 58-59). -/
def COLOR_COUNT_THRESHOLD : Nat := 5

/-- The mutable state of the sketch (globals, lines 150-176, plus the `static`
locals of `handleEncoder`, lines 583-585, and an `asleep` flag marking that
`enterDeepSleep` was reached — `esp_deep_sleep_start` never returns).
`lastButtonState` and the button input are digital levels, `true` = HIGH
(the button is active-low).  `colorCounters` holds the `uint8_t` counters
(indices `0 ≤ i < 16` are used); `painterCollectionStatus p c` is the
`bool [6][5]` grid. -/
structure DeviceState where
  currentMode : OperationMode
  isColorDetectionEnabled : Bool
  isLooping : Bool
  currentPlayingFile : String
  currentVolume : Int
  lastButtonState : Bool
  buttonPressStartTime : Nat
  isLongPressing : Bool
  sleepPressStartTime : Nat
  isSleepPressing : Bool
  isEncoderPressed : Bool
  volumeAdjustedWhilePressed : Bool
  lastRotationTime : Nat
  lastTrackNavigationTime : Nat
  lastEncoded : Nat
  lastDir : Int
  validRotations : Int
  colorCounters : Nat → Nat
  painterCollectionStatus : Nat → Nat → Bool
  asleep : Bool

/-- The external reads of one tick of `loop()`.  `now` is `millis()` (one value
per tick); `button` is `digitalRead(EC11_SW_PIN)` (`true` = HIGH); `encA`/`encB`
are the encoder phase lines; `detect` is the outcome of scanning the
Detection-mode table `colorThresholds` (the table itself is not among the
sources): `some audioFile` on a first match, `none` otherwise; `marks` are the
matches produced by the six `checkPainterColor` scans of the painter tables
(also absent from the sources): each entry is `(painterIndex, colorIndex - 1)`
as written by line 400; `sdExists` is `SD.exists`, `connectOK` is
`audio.connecttoFS`, `audioRunning` is `audio.isRunning()`. -/
structure TickEnv where
  now : Nat
  button : Bool
  encA : Bool
  encB : Bool
  detect : Option String
  marks : List (Nat × Nat)
  sdExists : String → Bool
  connectOK : String → Bool
  audioRunning : Bool

/-- `resetAllPainterCollections` (lines 833-835): every grid entry false. -/
def resetAllPainterCollections : Nat → Nat → Bool := fun _ _ => false

/-- One `painterCollectionStatus[p][c] = true` write (line 400). -/
def setMark (g : Nat → Nat → Bool) (p c : Nat) : Nat → Nat → Bool :=
  fun q d => if q = p ∧ d = c then true else g q d

/-- Apply the matches of the six `checkPainterColor` scans in order. -/
def applyMarks : List (Nat × Nat) → (Nat → Nat → Bool) → (Nat → Nat → Bool)
  | [], g => g
  | m :: rest, g => applyMarks rest (setMark g m.1 m.2)

/-- Clear one painter's row (lines 435-437). -/
def resetRow (g : Nat → Nat → Bool) (p : Nat) : Nat → Nat → Bool :=
  fun q d => if q = p then false else g q d

/-- The completion test of lines 415-421: all five entries of row `p`. -/
def rowComplete (g : Nat → Nat → Bool) (p : Nat) : Bool :=
  g p 0 && g p 1 && g p 2 && g p 3 && g p 4

/-- Modelled from the spec: `getBaseColorName` is called by `playAudio`
(line 449) but its definition is not among the provided sources.  Spec §4.4/§6:
the family is the base symbolic prefix of the matched identity and special
assets are named base + "X"; we take the leading non-digit prefix of the
identity string. -/
def getBaseColorName (s : String) : String :=
  String.mk (s.data.takeWhile (fun c => !c.isDigit))

/-- The family prefixes of the `colorStepSequences` table (lines 113-129). -/
def familyIds : List String :=
  ["R", "O", "Y", "G", "B", "V", "RO", "OY", "YG", "GB", "BV", "VR"]

/-- Modelled from the spec: `getColorFamilyIndex` is called by `playAudio`
(line 451) but its definition is not among the provided sources.  Spec §4.4:
the family index is the position of the identity's base prefix among the color
families (the prefixes of `colorStepSequences`); `-1` when the identity belongs
to no family. -/
def getColorFamilyIndex (s : String) : Int :=
  match familyIds.findIdx? (fun p => p = getBaseColorName s) with
  | some i => (i : Int)
  | none => -1

/-- `playTrack` (lines 474-502).  A missing asset returns early (no state
change); otherwise the running song is stopped, the track name saved, and the
`connecttoFS` outcome decides `isLooping`; on success in Painter-Collection
mode every grid is wholesale reset (lines 497-500). -/
def playTrack (env : TickEnv) (filename : String) (st : DeviceState) :
    DeviceState × List Event :=
  if env.sdExists filename = false then
    (st, [])
  else
    let st1 := { st with currentPlayingFile := filename }
    if env.connectOK filename = false then
      ({ st1 with isLooping := false }, [Event.stopSong, Event.connect filename])
    else
      let st2 := { st1 with isLooping := true }
      let st3 :=
        if st2.currentMode = OperationMode.painterCollection then
          { st2 with painterCollectionStatus := resetAllPainterCollections }
        else st2
      (st3, [Event.stopSong, Event.connect filename])

/-- `playAudio` (lines 447-471): repeat-counter bookkeeping in Color
Recognition mode (`uint8_t` increment, hence `% 256`), special "X" asset on
trip, plain asset otherwise, then `playTrack`. -/
def playAudio (env : TickEnv) (colorName : String) (st : DeviceState) :
    DeviceState × List Event :=
  let baseColor := getBaseColorName colorName
  let colorIndex := getColorFamilyIndex colorName
  if st.currentMode = OperationMode.colorRecognition ∧ 0 ≤ colorIndex then
    let i := colorIndex.toNat
    let c := (st.colorCounters i + 1) % 256
    let st1 := { st with colorCounters := Function.update st.colorCounters i c }
    if COLOR_COUNT_THRESHOLD ≤ c then
      let st2 := { st1 with colorCounters := Function.update st1.colorCounters i 0 }
      let file := "/" ++ baseColor ++ "X.mp3"
      let st3 := { st2 with currentPlayingFile := file }
      let r := playTrack env file st3
      (r.1, Event.audioRequest file :: r.2)
    else
      let file := "/" ++ colorName ++ ".mp3"
      let st2 := { st1 with currentPlayingFile := file }
      let r := playTrack env file st2
      (r.1, Event.audioRequest file :: r.2)
  else
    let file := "/" ++ colorName ++ ".mp3"
    let st1 := { st with currentPlayingFile := file }
    let r := playTrack env file st1
    (r.1, Event.audioRequest file :: r.2)

/-- The painter completion assets (line 428). -/
def painterNames : List String :=
  ["P_Dali", "P_Gogh", "P_Munch", "P_Picasso", "P_Seurat", "P_Vinci"]

def painterName (p : Nat) : String := painterNames.getD p ""

/-- The body of one iteration of `checkPainterCompletion`'s painter loop
(lines 414-438): on a complete row, blink, play the painter's asset, disable
sensing and reset that row. -/
def completionStep (env : TickEnv) (st : DeviceState) (p : Nat) :
    DeviceState × List Event :=
  if rowComplete st.painterCollectionStatus p then
    let r := playAudio env (painterName p) st
    ({ r.1 with
        isColorDetectionEnabled := false,
        painterCollectionStatus := resetRow r.1.painterCollectionStatus p },
      Event.blinkE 2 :: r.2)
  else (st, [])

/-- Fold `completionStep` over a list of painter indices in order. -/
def cpcAux (env : TickEnv) : List Nat → DeviceState × List Event →
    DeviceState × List Event
  | [], acc => acc
  | p :: rest, acc =>
      let r := completionStep env acc.1 p
      cpcAux env rest (r.1, acc.2 ++ r.2)

/-- `checkPainterCompletion` (lines 412-440): painters scanned in table order
0..5. -/
def checkPainterCompletion (env : TickEnv) (st : DeviceState) :
    DeviceState × List Event :=
  cpcAux env [0, 1, 2, 3, 4, 5] (st, [])

/-- `switchMode` (lines 809-831): stop playback, clear the play target, toggle
the mode, zero all repeat counters, blink, and reset the painter grids only
when the **new** mode is Painter Collection (lines 825-827). -/
def switchMode (st : DeviceState) : DeviceState × List Event :=
  let st1 := { st with isLooping := false, currentPlayingFile := "" }
  let newMode :=
    if st1.currentMode = OperationMode.colorRecognition then
      OperationMode.painterCollection
    else OperationMode.colorRecognition
  let st2 := { st1 with currentMode := newMode, colorCounters := fun _ => 0 }
  let k := if newMode = OperationMode.colorRecognition then 1 else 2
  let st3 :=
    if newMode = OperationMode.painterCollection then
      { st2 with painterCollectionStatus := resetAllPainterCollections }
    else st2
  (st3, [Event.stopSong, Event.blinkE k, Event.modeSwitched])

/-- Modelled from the spec: `checkColorAndPlayAudio` is called on the
short-press disable path (line 564) but its definition is not among the
provided sources.  Spec §4.4: turning sensing off in Detection mode "performs
one final classification pass so the last-seen color still yields audio
feedback" — one scan of the Detection table on the current sample, playing the
matched asset. -/
def checkColorAndPlayAudio (env : TickEnv) (st : DeviceState) :
    DeviceState × List Event :=
  match env.detect with
  | some name => playAudio env name st
  | none => (st, [])

/-- The press-edge stage of `handleButton` (lines 513-520): stamp both timers
and arm the hold flags. -/
def hbPressEdge (env : TickEnv) (st0 : DeviceState) : DeviceState :=
  if env.button = false ∧ st0.lastButtonState = true then
    { st0 with
        buttonPressStartTime := env.now
        isLongPressing := true
        sleepPressStartTime := env.now
        isSleepPressing := true
        isEncoderPressed := true
        volumeAdjustedWhilePressed := false }
  else st0

/-- The mode-switch long-press check of `handleButton` (lines 532-540):
at the threshold, switch mode unless a volume adjustment happened, and disarm
further checks for this hold either way. -/
def hbModeCheck (env : TickEnv) (st1 : DeviceState) : DeviceState × List Event :=
  if st1.isLongPressing = true ∧ env.button = false ∧
      MODE_SWITCH_PRESS_DURATION ≤ env.now - st1.buttonPressStartTime then
    if st1.volumeAdjustedWhilePressed = false then
      let sw := switchMode st1
      ({ sw.1 with isLongPressing := false }, sw.2)
    else
      ({ st1 with isLongPressing := false }, [])
  else (st1, [])

/-- The short-press toggle body of `handleButton` (lines 547-570): flip
sensing, reset the collections in Painter mode, and on disabling either run the
final Detection classification or, on enabling, stop playback. -/
def hbShortPress (env : TickEnv) (stA : DeviceState) : DeviceState × List Event :=
  let stT0 := { stA with isColorDetectionEnabled := !stA.isColorDetectionEnabled }
  let stT :=
    if stT0.currentMode = OperationMode.painterCollection then
      { stT0 with painterCollectionStatus := resetAllPainterCollections }
    else stT0
  let after :=
    if stT.isColorDetectionEnabled = false then
      if stT.currentMode = OperationMode.colorRecognition then
        checkColorAndPlayAudio env stT
      else (stT, [])
    else
      ({ stT with isLooping := false }, [Event.stopSong])
  (after.1, Event.toggleDetection :: after.2)

/-- The release-edge stage of `handleButton` (lines 543-576). -/
def hbRelease (env : TickEnv) (st2 : DeviceState) : DeviceState × List Event :=
  if env.button = true ∧ st2.lastButtonState = false then
    let stA := { st2 with isEncoderPressed := false }
    let short :=
      if env.now - stA.buttonPressStartTime < MODE_SWITCH_PRESS_DURATION ∧
          stA.volumeAdjustedWhilePressed = false then
        hbShortPress env stA
      else (stA, [])
    ({ short.1 with
        volumeAdjustedWhilePressed := false
        isLongPressing := false
        isSleepPressing := false }, short.2)
  else (st2, [])

/-- `handleButton` (lines 509-579): press edge, then the sleep check —
reaching `SLEEP_PRESS_DURATION` enters `prepareForSleep`/`enterDeepSleep`,
which never returns (modelled by the `asleep` flag and an early exit) — then
the mode-switch check and release handling, and finally the `lastButtonState`
update. -/
def handleButton (env : TickEnv) (st0 : DeviceState) : DeviceState × List Event :=
  let st1 := hbPressEdge env st0
  if st1.isSleepPressing = true ∧ env.button = false ∧
      SLEEP_PRESS_DURATION ≤ env.now - st1.sleepPressStartTime then
    ({ st1 with asleep := true }, [Event.stopSong, Event.sleepRequested])
  else
    let r2 := hbModeCheck env st1
    let r3 := hbRelease env r2.1
    ({ r3.1 with lastButtonState := env.button }, r2.2 ++ r3.2)

/-- The 2-bit phase value read each tick (lines 588-592). -/
def encOf (env : TickEnv) : Nat :=
  (if env.encA then 2 else 0) + (if env.encB then 1 else 0)

/-- The quadrature state table (lines 595-603): 4 transition codes map to
clockwise (+1), 4 to counter-clockwise (−1), all others to 0. -/
def decodeDir (lastEncoded encoded : Nat) : Int :=
  let sum := lastEncoded * 4 + encoded
  if sum = 13 ∨ sum = 4 ∨ sum = 2 ∨ sum = 11 then 1
  else if sum = 14 ∨ sum = 7 ∨ sum = 1 ∨ sum = 8 then -1
  else 0

/-- The decode stream of a phase-sample list: each sample is decoded against
the previous one (`lastEncoded` is overwritten every tick, line 606). -/
def decodes (init : Nat) : List Nat → List Int
  | [] => []
  | e :: rest => decodeDir init e :: decodes e rest

/-- `handleEncoder` (lines 582-664): decode, then the two-consecutive-ticks
confirmation; a confirmed rotation is a volume intent while the button is held
(bounded at `MIN_VOLUME`/`MAX_VOLUME`, setting the volume-adjusted flag) and a
track-navigation intent otherwise (only with sensing off); a direction change
resets `lastDir` and sets `validRotations := 2`. -/
def handleEncoder (env : TickEnv) (st0 : DeviceState) : DeviceState × List Event :=
  let encoded := encOf env
  let dir := decodeDir st0.lastEncoded encoded
  let st1 := { st0 with lastEncoded := encoded }
  if dir ≠ 0 then
    if dir = st1.lastDir then
      let st2 := { st1 with validRotations := st1.validRotations + 1 }
      if 1 ≤ st2.validRotations then
        if st2.isEncoderPressed = true then
          if ROTATION_DEBOUNCE < env.now - st2.lastRotationTime then
            let res :=
              if 0 < dir then
                if MIN_VOLUME < st2.currentVolume then
                  let v := st2.currentVolume - VOLUME_STEP
                  ({ st2 with currentVolume := v, volumeAdjustedWhilePressed := true },
                    [Event.setVol v])
                else (st2, ([] : List Event))
              else
                if st2.currentVolume < MAX_VOLUME then
                  let v := st2.currentVolume + VOLUME_STEP
                  ({ st2 with currentVolume := v, volumeAdjustedWhilePressed := true },
                    [Event.setVol v])
                else (st2, ([] : List Event))
            ({ res.1 with validRotations := 0, lastRotationTime := env.now }, res.2)
          else (st2, [])
        else
          if TRACK_NAVIGATION_DEBOUNCE < env.now - st2.lastTrackNavigationTime ∧
              st2.isColorDetectionEnabled = false then
            ({ st2 with validRotations := 0, lastTrackNavigationTime := env.now },
              if 0 < dir then [Event.nextTrack] else [Event.prevTrack])
          else (st2, [])
      else (st2, [])
    else
      ({ st1 with lastDir := dir, validRotations := 2 }, [])
  else (st1, [])

/-- The conditional sensing / playback-continuation part of `loop()`
(lines 277-314): with sensing on, classify per mode (Detection: one table scan
feeding `playAudio`; Collection: the six painter scans then
`checkPainterCompletion`); with sensing off, the looping-restart service —
if looping and the song ended, re-issue `connecttoFS` on the saved name,
dropping the looping flag on failure. -/
def sensingStep (env : TickEnv) (st : DeviceState) : DeviceState × List Event :=
  if st.isColorDetectionEnabled = true then
    if st.currentMode = OperationMode.colorRecognition then
      match env.detect with
      | some name => playAudio env name st
      | none => (st, [])
    else
      let stM :=
        { st with painterCollectionStatus :=
            applyMarks env.marks st.painterCollectionStatus }
      checkPainterCompletion env stM
  else
    if st.isLooping = true then
      if env.audioRunning = false then
        if st.currentPlayingFile ≠ "" then
          if env.connectOK st.currentPlayingFile = false then
            ({ st with isLooping := false }, [Event.connect st.currentPlayingFile])
          else
            (st, [Event.connect st.currentPlayingFile])
        else (st, [])
      else (st, [])
    else (st, [])

/-- One tick of `loop()` (lines 267-320): `handleButton`, `handleEncoder`,
then the sensing / continuation step.  Entering deep sleep never returns, so
the tick ends right after `handleButton` in that case.  The trailing
`audio.loop()` service call (lines 317-319) keeps playback progressing but has
no modelled state. -/
def loopTick (env : TickEnv) (st : DeviceState) : DeviceState × List Event :=
  let b := handleButton env st
  if b.1.asleep = true then b
  else
    let e := handleEncoder env b.1
    let s := sensingStep env e.1
    (s.1, b.2 ++ e.2 ++ s.2)

/-- Run a list of ticks; the run is over once `enterDeepSleep` was reached. -/
def runDevice : List TickEnv → DeviceState → DeviceState × List Event
  | [], st => (st, [])
  | env :: rest, st =>
    if st.asleep = true then (st, [])
    else
      let t := loopTick env st
      let r := runDevice rest t.1
      (r.1, t.2 ++ r.2)

/-- Run `handleEncoder` alone over a list of ticks (the Quadrature Decoder /
rotation-confirmation subsystem in isolation). -/
def runEnc : List TickEnv → DeviceState → DeviceState × List Event
  | [], st => (st, [])
  | env :: rest, st =>
    let t := handleEncoder env st
    let r := runEnc rest t.1
    (r.1, t.2 ++ r.2)

/-! ## Basic helper lemmas -/

/-- Events that the classification / playback pipeline can emit (no input
intents: not a sleep request, mode switch, detection toggle, volume change or
track navigation). -/
def quiet : Event → Bool
  | .stopSong => true
  | .connect _ => true
  | .audioRequest _ => true
  | .blinkE _ => true
  | _ => false

/-- Recognizer for `playAudio`-level playback requests. -/
def isReq : Event → Bool
  | .audioRequest _ => true
  | _ => false

lemma lastButton_self (st : DeviceState) (b : Bool) (h : st.lastButtonState = b) :
    ({ st with lastButtonState := b } : DeviceState) = st := by
  cases st; subst h; rfl

lemma lastEncoded_self (st : DeviceState) (n : Nat) (h : st.lastEncoded = n) :
    ({ st with lastEncoded := n } : DeviceState) = st := by
  cases st; subst h; rfl

/-- A no-change phase sample decodes to no rotation: `5 * l` is never one of
the eight transition codes. -/
lemma decodeDir_self (l : Nat) : decodeDir l l = 0 := by
  unfold decodeDir
  dsimp only
  split_ifs with h1 h2
  · omega
  · omega
  · rfl

/-- The fields of the arbiter/decoder (button and encoder bookkeeping, volume,
sleep flag, mode) that the classification / playback pipeline never touches. -/
def uiEq (a b : DeviceState) : Prop :=
  a.lastButtonState = b.lastButtonState ∧
  a.buttonPressStartTime = b.buttonPressStartTime ∧
  a.isLongPressing = b.isLongPressing ∧
  a.sleepPressStartTime = b.sleepPressStartTime ∧
  a.isSleepPressing = b.isSleepPressing ∧
  a.isEncoderPressed = b.isEncoderPressed ∧
  a.volumeAdjustedWhilePressed = b.volumeAdjustedWhilePressed ∧
  a.lastRotationTime = b.lastRotationTime ∧
  a.lastTrackNavigationTime = b.lastTrackNavigationTime ∧
  a.lastEncoded = b.lastEncoded ∧
  a.lastDir = b.lastDir ∧
  a.validRotations = b.validRotations ∧
  a.currentVolume = b.currentVolume ∧
  a.asleep = b.asleep ∧
  a.currentMode = b.currentMode

lemma uiEq_refl (a : DeviceState) : uiEq a a := by
  simp [uiEq]

lemma uiEq_trans {a b c : DeviceState} (h1 : uiEq a b) (h2 : uiEq b c) : uiEq a c := by
  obtain ⟨e1, e2, e3, e4, e5, e6, e7, e8, e9, e10, e11, e12, e13, e14, e15⟩ := h1
  obtain ⟨f1, f2, f3, f4, f5, f6, f7, f8, f9, f10, f11, f12, f13, f14, f15⟩ := h2
  exact ⟨e1.trans f1, e2.trans f2, e3.trans f3, e4.trans f4, e5.trans f5,
    e6.trans f6, e7.trans f7, e8.trans f8, e9.trans f9, e10.trans f10,
    e11.trans f11, e12.trans f12, e13.trans f13, e14.trans f14, e15.trans f15⟩

/-! ## `playTrack` lemmas -/

lemma playTrack_quiet (env : TickEnv) (f : String) (st : DeviceState) :
    ∀ e ∈ (playTrack env f st).2, quiet e = true := by
  unfold playTrack
  dsimp only
  repeat' split
  all_goals simp [quiet]

lemma playTrack_uiEq (env : TickEnv) (f : String) (st : DeviceState) :
    uiEq (playTrack env f st).1 st := by
  unfold playTrack
  dsimp only
  repeat' split
  all_goals simp [uiEq]

lemma playTrack_grid_mono (env : TickEnv) (f : String) (st : DeviceState) :
    ∀ p c, (playTrack env f st).1.painterCollectionStatus p c = true →
      st.painterCollectionStatus p c = true := by
  unfold playTrack
  dsimp only
  repeat' split
  all_goals simp [resetAllPainterCollections]

lemma playTrack_counters (env : TickEnv) (f : String) (st : DeviceState) :
    (playTrack env f st).1.colorCounters = st.colorCounters := by
  unfold playTrack
  dsimp only
  repeat' split
  all_goals rfl

lemma playTrack_missing (env : TickEnv) (f : String) (st : DeviceState)
    (h : env.sdExists f = false) : playTrack env f st = (st, []) := by
  unfold playTrack
  dsimp only
  simp [h]

lemma playTrack_connectFail (env : TickEnv) (f : String) (st : DeviceState)
    (h1 : env.sdExists f = true) (h2 : env.connectOK f = false) :
    playTrack env f st =
      ({ st with currentPlayingFile := f, isLooping := false },
        [Event.stopSong, Event.connect f]) := by
  unfold playTrack
  dsimp only
  simp [h1, h2]

lemma playTrack_success (env : TickEnv) (f : String) (st : DeviceState)
    (h1 : env.sdExists f = true) (h2 : env.connectOK f = true)
    (h3 : st.currentMode = OperationMode.painterCollection) :
    playTrack env f st =
      ({ st with
          currentPlayingFile := f
          isLooping := true
          painterCollectionStatus := resetAllPainterCollections },
        [Event.stopSong, Event.connect f]) := by
  unfold playTrack
  dsimp only
  simp [h1, h2, h3]

/-! ## `playAudio` lemmas -/

/-- Every branch of `playAudio` updates only the counters and the saved play
target before delegating to `playTrack` and prepending the request event. -/
lemma playAudio_cases (env : TickEnv) (n : String) (st : DeviceState) :
    ∃ f stX,
      (playAudio env n st).1 = (playTrack env f stX).1 ∧
      (playAudio env n st).2 = Event.audioRequest f :: (playTrack env f stX).2 ∧
      uiEq stX st ∧
      stX.painterCollectionStatus = st.painterCollectionStatus := by
  unfold playAudio
  dsimp only
  split_ifs <;> exact ⟨_, _, rfl, rfl, by simp [uiEq], rfl⟩

lemma playAudio_quiet (env : TickEnv) (n : String) (st : DeviceState) :
    ∀ e ∈ (playAudio env n st).2, quiet e = true := by
  obtain ⟨f, stX, h1, h2, _, _⟩ := playAudio_cases env n st
  rw [h2]
  intro e he
  rcases List.mem_cons.1 he with h | h
  · subst h; rfl
  · exact playTrack_quiet _ _ _ e h

lemma playAudio_uiEq (env : TickEnv) (n : String) (st : DeviceState) :
    uiEq (playAudio env n st).1 st := by
  obtain ⟨f, stX, h1, h2, hui, _⟩ := playAudio_cases env n st
  rw [h1]
  exact uiEq_trans (playTrack_uiEq _ _ _) hui

lemma playAudio_grid_mono (env : TickEnv) (n : String) (st : DeviceState) :
    ∀ p c, (playAudio env n st).1.painterCollectionStatus p c = true →
      st.painterCollectionStatus p c = true := by
  obtain ⟨f, stX, h1, h2, _, hg⟩ := playAudio_cases env n st
  intro p c h
  rw [h1] at h
  have := playTrack_grid_mono env f stX p c h
  rwa [hg] at this

/-- In Painter-Collection mode `playAudio` takes the direct-playback path. -/
lemma playAudio_collection (env : TickEnv) (n : String) (st : DeviceState)
    (h : st.currentMode = OperationMode.painterCollection) :
    playAudio env n st =
      (let f := "/" ++ n ++ ".mp3"
       let r := playTrack env f { st with currentPlayingFile := f }
       (r.1, Event.audioRequest f :: r.2)) := by
  unfold playAudio
  dsimp only
  simp [h]

/-! ## Completion-scan lemmas -/

lemma rowComplete_true_of (g1 g2 : Nat → Nat → Bool) (q : Nat)
    (hmono : ∀ c, g1 q c = true → g2 q c = true)
    (h : rowComplete g1 q = true) : rowComplete g2 q = true := by
  simp only [rowComplete, Bool.and_eq_true] at h ⊢
  exact ⟨⟨⟨⟨hmono 0 h.1.1.1.1, hmono 1 h.1.1.1.2⟩, hmono 2 h.1.1.2⟩,
    hmono 3 h.1.2⟩, hmono 4 h.2⟩

lemma rowComplete_resetRow_self (g : Nat → Nat → Bool) (p : Nat) :
    rowComplete (resetRow g p) p = false := by
  simp [rowComplete, resetRow]

lemma rowComplete_resetAll (q : Nat) :
    rowComplete resetAllPainterCollections q = false := by
  simp [rowComplete, resetAllPainterCollections]

lemma completionStep_noop (env : TickEnv) (st : DeviceState) (p : Nat)
    (h : rowComplete st.painterCollectionStatus p = false) :
    completionStep env st p = (st, []) := by
  unfold completionStep
  simp [h]

lemma completionStep_quiet (env : TickEnv) (st : DeviceState) (p : Nat) :
    ∀ e ∈ (completionStep env st p).2, quiet e = true := by
  unfold completionStep
  split_ifs
  · intro e he
    rcases List.mem_cons.1 he with h | h
    · subst h; rfl
    · exact playAudio_quiet _ _ _ e h
  · simp

lemma completionStep_uiEq (env : TickEnv) (st : DeviceState) (p : Nat) :
    uiEq (completionStep env st p).1 st := by
  unfold completionStep
  split_ifs
  · refine uiEq_trans ?_ (playAudio_uiEq env (painterName p) st)
    simp [uiEq]
  · exact uiEq_refl st

lemma completionStep_grid_mono (env : TickEnv) (st : DeviceState) (p : Nat) :
    ∀ q c, (completionStep env st p).1.painterCollectionStatus q c = true →
      st.painterCollectionStatus q c = true := by
  unfold completionStep
  split_ifs
  · intro q c h
    simp only [resetRow] at h
    split_ifs at h
    exact playAudio_grid_mono _ _ _ q c h
  · intro q c h
    exact h

lemma completionStep_row_self (env : TickEnv) (st : DeviceState) (p : Nat) :
    rowComplete (completionStep env st p).1.painterCollectionStatus p = false := by
  unfold completionStep
  split_ifs with h
  · exact rowComplete_resetRow_self _ _
  · simpa using h

lemma completionStep_row_keep (env : TickEnv) (st : DeviceState) (p q : Nat)
    (h : rowComplete st.painterCollectionStatus q = false) :
    rowComplete (completionStep env st p).1.painterCollectionStatus q = false := by
  cases hv : rowComplete (completionStep env st p).1.painterCollectionStatus q with
  | false => rfl
  | true =>
    have := rowComplete_true_of _ _ q
      (fun c => completionStep_grid_mono env st p q c) hv
    rw [h] at this
    exact this.symm

lemma cpcAux_acc (env : TickEnv) (L : List Nat) (st : DeviceState)
    (evs : List Event) :
    cpcAux env L (st, evs) =
      ((cpcAux env L (st, [])).1, evs ++ (cpcAux env L (st, [])).2) := by
  induction L generalizing st evs with
  | nil => simp [cpcAux]
  | cons p rest ih =>
    simp only [cpcAux]
    rw [ih (completionStep env st p).1 (evs ++ (completionStep env st p).2),
        ih (completionStep env st p).1 ([] ++ (completionStep env st p).2)]
    simp

lemma cpcAux_quiet (env : TickEnv) (L : List Nat) (st : DeviceState) :
    ∀ e ∈ (cpcAux env L (st, [])).2, quiet e = true := by
  induction L generalizing st with
  | nil => simp [cpcAux]
  | cons p rest ih =>
    simp only [cpcAux]
    rw [cpcAux_acc]
    intro e he
    simp only [List.nil_append, List.mem_append] at he
    rcases he with h | h
    · exact completionStep_quiet env st p e h
    · exact ih (completionStep env st p).1 e h

lemma cpcAux_uiEq (env : TickEnv) (L : List Nat) (st : DeviceState)
    (evs : List Event) : uiEq (cpcAux env L (st, evs)).1 st := by
  induction L generalizing st evs with
  | nil => exact uiEq_refl st
  | cons p rest ih =>
    simp only [cpcAux]
    exact uiEq_trans (ih _ _) (completionStep_uiEq env st p)

lemma cpcAux_row_keep (env : TickEnv) (L : List Nat) (st : DeviceState)
    (evs : List Event) (q : Nat)
    (h : rowComplete st.painterCollectionStatus q = false) :
    rowComplete (cpcAux env L (st, evs)).1.painterCollectionStatus q = false := by
  induction L generalizing st evs with
  | nil => exact h
  | cons p rest ih =>
    simp only [cpcAux]
    exact ih _ _ (completionStep_row_keep env st p q h)

lemma cpcAux_rows_mem (env : TickEnv) (L : List Nat) (st : DeviceState)
    (evs : List Event) :
    ∀ q ∈ L, rowComplete (cpcAux env L (st, evs)).1.painterCollectionStatus q = false := by
  induction L generalizing st evs with
  | nil => simp
  | cons p rest ih =>
    intro q hq
    simp only [cpcAux]
    rcases List.mem_cons.1 hq with h | h
    · subst h
      exact cpcAux_row_keep env rest _ _ q (completionStep_row_self env st q)
    · exact ih _ _ q h

lemma mem_painterList {q : Nat} (h : q < 6) : q ∈ [0, 1, 2, 3, 4, 5] := by
  interval_cases q <;> simp

lemma checkPainterCompletion_rows (env : TickEnv) (st : DeviceState) :
    ∀ q < 6, rowComplete (checkPainterCompletion env st).1.painterCollectionStatus q = false := by
  intro q hq
  exact cpcAux_rows_mem env _ st [] q (mem_painterList hq)

lemma checkPainterCompletion_quiet (env : TickEnv) (st : DeviceState) :
    ∀ e ∈ (checkPainterCompletion env st).2, quiet e = true :=
  cpcAux_quiet env _ st

lemma checkPainterCompletion_uiEq (env : TickEnv) (st : DeviceState) :
    uiEq (checkPainterCompletion env st).1 st :=
  cpcAux_uiEq env _ st []

/-! ## `checkColorAndPlayAudio` and `sensingStep` lemmas -/

lemma checkColorAndPlayAudio_quiet (env : TickEnv) (st : DeviceState) :
    ∀ e ∈ (checkColorAndPlayAudio env st).2, quiet e = true := by
  unfold checkColorAndPlayAudio
  cases env.detect with
  | none => simp
  | some n => exact playAudio_quiet env n st

lemma checkColorAndPlayAudio_uiEq (env : TickEnv) (st : DeviceState) :
    uiEq (checkColorAndPlayAudio env st).1 st := by
  unfold checkColorAndPlayAudio
  cases env.detect with
  | none => exact uiEq_refl st
  | some n => exact playAudio_uiEq env n st

lemma checkColorAndPlayAudio_grid_mono (env : TickEnv) (st : DeviceState) :
    ∀ q c, (checkColorAndPlayAudio env st).1.painterCollectionStatus q c = true →
      st.painterCollectionStatus q c = true := by
  unfold checkColorAndPlayAudio
  cases env.detect with
  | none => intro q c h; exact h
  | some n => exact playAudio_grid_mono env n st

lemma sensingStep_quiet (env : TickEnv) (st : DeviceState) :
    ∀ e ∈ (sensingStep env st).2, quiet e = true := by
  unfold sensingStep
  split_ifs <;> try simp [quiet]
  · cases env.detect with
    | none => simp
    | some n => exact playAudio_quiet env n st
  · exact checkPainterCompletion_quiet env _

lemma sensingStep_uiEq (env : TickEnv) (st : DeviceState) :
    uiEq (sensingStep env st).1 st := by
  unfold sensingStep
  split_ifs with hs hm hl ha hf hc
  · cases env.detect with
    | none => exact uiEq_refl st
    | some n => exact playAudio_uiEq env n st
  · exact uiEq_trans (checkPainterCompletion_uiEq env _) (by simp [uiEq])
  · simp [uiEq]
  · simp [uiEq]
  · simp [uiEq]
  · simp [uiEq]
  · simp [uiEq]

/-- After any tick's Collection-mode classification, every painter row is
incomplete; in the other branches rows can only lose entries. -/
lemma sensingStep_rows (env : TickEnv) (st : DeviceState)
    (h : ∀ q < 6, rowComplete st.painterCollectionStatus q = false) :
    ∀ q < 6, rowComplete (sensingStep env st).1.painterCollectionStatus q = false := by
  unfold sensingStep
  split_ifs with hs hm hl ha hf hc
  · cases env.detect with
    | none => exact h
    | some n =>
      intro q hq
      show rowComplete (playAudio env n st).1.painterCollectionStatus q = false
      cases hv : rowComplete (playAudio env n st).1.painterCollectionStatus q with
      | false => rfl
      | true =>
        have h2 := rowComplete_true_of _ _ q
          (fun c => playAudio_grid_mono env n st q c) hv
        rw [h q hq] at h2
        exact h2.symm
  · intro q hq
    exact checkPainterCompletion_rows env _ q hq
  · exact h
  · exact h
  · exact h
  · exact h
  · exact h

/-! ## `handleEncoder` lemmas -/

lemma handleEncoder_btnEq (env : TickEnv) (st : DeviceState) :
    (handleEncoder env st).1.currentMode = st.currentMode ∧
    (handleEncoder env st).1.isColorDetectionEnabled = st.isColorDetectionEnabled ∧
    (handleEncoder env st).1.isLooping = st.isLooping ∧
    (handleEncoder env st).1.currentPlayingFile = st.currentPlayingFile ∧
    (handleEncoder env st).1.lastButtonState = st.lastButtonState ∧
    (handleEncoder env st).1.buttonPressStartTime = st.buttonPressStartTime ∧
    (handleEncoder env st).1.isLongPressing = st.isLongPressing ∧
    (handleEncoder env st).1.sleepPressStartTime = st.sleepPressStartTime ∧
    (handleEncoder env st).1.isSleepPressing = st.isSleepPressing ∧
    (handleEncoder env st).1.isEncoderPressed = st.isEncoderPressed ∧
    (handleEncoder env st).1.asleep = st.asleep ∧
    (handleEncoder env st).1.colorCounters = st.colorCounters ∧
    (handleEncoder env st).1.painterCollectionStatus = st.painterCollectionStatus := by
  unfold handleEncoder
  dsimp only
  split_ifs <;> simp

lemma handleEncoder_evshape (env : TickEnv) (st : DeviceState) :
    (handleEncoder env st).2 = [] ∨
    (∃ v, (handleEncoder env st).2 = [Event.setVol v]) ∨
    (handleEncoder env st).2 = [Event.nextTrack] ∨
    (handleEncoder env st).2 = [Event.prevTrack] := by
  unfold handleEncoder
  dsimp only
  split_ifs <;> simp

lemma handleEncoder_volAdj_mono (env : TickEnv) (st : DeviceState)
    (h : st.volumeAdjustedWhilePressed = true) :
    (handleEncoder env st).1.volumeAdjustedWhilePressed = true := by
  unfold handleEncoder
  dsimp only
  split_ifs <;> simp [h]

lemma handleEncoder_lastEncoded (env : TickEnv) (st : DeviceState) :
    (handleEncoder env st).1.lastEncoded = encOf env := by
  unfold handleEncoder
  dsimp only
  split_ifs <;> simp

lemma handleEncoder_emit_need (env : TickEnv) (st : DeviceState)
    (h : (handleEncoder env st).2 ≠ []) :
    decodeDir st.lastEncoded (encOf env) ≠ 0 ∧
    decodeDir st.lastEncoded (encOf env) = st.lastDir := by
  unfold handleEncoder at h
  dsimp only at h
  split_ifs at h with h1 h2 <;> simp_all

lemma handleEncoder_zero (env : TickEnv) (st : DeviceState)
    (h : decodeDir st.lastEncoded (encOf env) = 0) :
    handleEncoder env st = ({ st with lastEncoded := encOf env }, []) := by
  unfold handleEncoder
  dsimp only
  simp [h]

lemma handleEncoder_change (env : TickEnv) (st : DeviceState)
    (hne : decodeDir st.lastEncoded (encOf env) ≠ 0)
    (hneq : decodeDir st.lastEncoded (encOf env) ≠ st.lastDir) :
    handleEncoder env st =
      ({ st with
          lastEncoded := encOf env
          lastDir := decodeDir st.lastEncoded (encOf env)
          validRotations := 2 }, []) := by
  unfold handleEncoder
  dsimp only
  simp [hne, hneq]

lemma handleEncoder_accept_track (env : TickEnv) (st : DeviceState)
    (heq : decodeDir st.lastEncoded (encOf env) = st.lastDir)
    (hne : st.lastDir ≠ 0)
    (hvr : 0 ≤ st.validRotations)
    (hpress : st.isEncoderPressed = false)
    (hsense : st.isColorDetectionEnabled = false)
    (hdeb : TRACK_NAVIGATION_DEBOUNCE < env.now - st.lastTrackNavigationTime) :
    (handleEncoder env st).2 =
      (if 0 < st.lastDir then [Event.nextTrack] else [Event.prevTrack]) := by
  have h1 : (1:Int) ≤ st.validRotations + 1 := by omega
  unfold handleEncoder
  dsimp only
  simp [heq, hne, hpress, hsense, hdeb, h1]

lemma handleEncoder_bound (env : TickEnv) (st : DeviceState)
    (hpress : st.isEncoderPressed = true)
    (hd : decodeDir st.lastEncoded (encOf env) = 0 ∨
      (decodeDir st.lastEncoded (encOf env) = 1 ∧ st.currentVolume ≤ MIN_VOLUME) ∨
      (decodeDir st.lastEncoded (encOf env) = -1 ∧ MAX_VOLUME ≤ st.currentVolume)) :
    (handleEncoder env st).1.currentVolume = st.currentVolume ∧
    (handleEncoder env st).1.volumeAdjustedWhilePressed = st.volumeAdjustedWhilePressed ∧
    (handleEncoder env st).2 = [] := by
  unfold handleEncoder
  dsimp only
  rcases hd with h | ⟨h, hv⟩ | ⟨h, hv⟩ <;>
    simp_all [MIN_VOLUME, MAX_VOLUME] <;> split_ifs <;> simp_all <;> omega

lemma handleEncoder_released (env : TickEnv) (st : DeviceState)
    (hpress : st.isEncoderPressed = false) :
    (handleEncoder env st).1.currentVolume = st.currentVolume ∧
    (handleEncoder env st).1.volumeAdjustedWhilePressed = st.volumeAdjustedWhilePressed ∧
    (∀ v, Event.setVol v ∉ (handleEncoder env st).2) := by
  unfold handleEncoder
  dsimp only
  split_ifs <;> simp_all

/-! ## `switchMode` lemmas -/

lemma switchMode_fields (st : DeviceState) :
    (switchMode st).1.lastButtonState = st.lastButtonState ∧
    (switchMode st).1.buttonPressStartTime = st.buttonPressStartTime ∧
    (switchMode st).1.isLongPressing = st.isLongPressing ∧
    (switchMode st).1.sleepPressStartTime = st.sleepPressStartTime ∧
    (switchMode st).1.isSleepPressing = st.isSleepPressing ∧
    (switchMode st).1.isEncoderPressed = st.isEncoderPressed ∧
    (switchMode st).1.volumeAdjustedWhilePressed = st.volumeAdjustedWhilePressed ∧
    (switchMode st).1.lastRotationTime = st.lastRotationTime ∧
    (switchMode st).1.lastTrackNavigationTime = st.lastTrackNavigationTime ∧
    (switchMode st).1.lastEncoded = st.lastEncoded ∧
    (switchMode st).1.lastDir = st.lastDir ∧
    (switchMode st).1.validRotations = st.validRotations ∧
    (switchMode st).1.currentVolume = st.currentVolume ∧
    (switchMode st).1.asleep = st.asleep ∧
    (switchMode st).1.isColorDetectionEnabled = st.isColorDetectionEnabled := by
  unfold switchMode
  dsimp only
  split_ifs <;> simp

lemma switchMode_events (st : DeviceState) :
    ∃ k, (switchMode st).2 = [Event.stopSong, Event.blinkE k, Event.modeSwitched] := by
  unfold switchMode
  dsimp only
  split_ifs <;> exact ⟨_, rfl⟩

lemma switchMode_grid_mono (st : DeviceState) :
    ∀ q c, (switchMode st).1.painterCollectionStatus q c = true →
      st.painterCollectionStatus q c = true := by
  unfold switchMode
  dsimp only
  split_ifs <;> simp [resetAllPainterCollections]

/-! ## `handleButton` stage lemmas -/

lemma hbPressEdge_pos (env : TickEnv) (st : DeviceState)
    (hbtn : env.button = false) (hlast : st.lastButtonState = true) :
    hbPressEdge env st =
      { st with
          buttonPressStartTime := env.now
          isLongPressing := true
          sleepPressStartTime := env.now
          isSleepPressing := true
          isEncoderPressed := true
          volumeAdjustedWhilePressed := false } := by
  unfold hbPressEdge
  rw [if_pos ⟨hbtn, hlast⟩]

lemma hbPressEdge_skip (env : TickEnv) (st : DeviceState)
    (h : st.lastButtonState = false) : hbPressEdge env st = st := by
  unfold hbPressEdge
  rw [if_neg]
  rintro ⟨-, hh⟩
  rw [h] at hh
  exact absurd hh (by simp)

lemma hbModeCheck_idle (env : TickEnv) (st : DeviceState)
    (h : ¬(st.isLongPressing = true ∧ env.button = false ∧
        MODE_SWITCH_PRESS_DURATION ≤ env.now - st.buttonPressStartTime)) :
    hbModeCheck env st = (st, []) := by
  unfold hbModeCheck
  rw [if_neg h]

lemma hbModeCheck_fire (env : TickEnv) (st : DeviceState)
    (hlp : st.isLongPressing = true) (hbtn : env.button = false)
    (ht : MODE_SWITCH_PRESS_DURATION ≤ env.now - st.buttonPressStartTime)
    (hva : st.volumeAdjustedWhilePressed = false) :
    hbModeCheck env st =
      ({ (switchMode st).1 with isLongPressing := false }, (switchMode st).2) := by
  unfold hbModeCheck
  rw [if_pos ⟨hlp, hbtn, ht⟩, if_pos hva]

lemma hbModeCheck_suppressed (env : TickEnv) (st : DeviceState)
    (hlp : st.isLongPressing = true) (hbtn : env.button = false)
    (ht : MODE_SWITCH_PRESS_DURATION ≤ env.now - st.buttonPressStartTime)
    (hva : st.volumeAdjustedWhilePressed = true) :
    hbModeCheck env st = ({ st with isLongPressing := false }, []) := by
  unfold hbModeCheck
  rw [if_pos ⟨hlp, hbtn, ht⟩, if_neg (by simp [hva])]

lemma hbShortPress_events (env : TickEnv) (st : DeviceState) :
    ∃ tail, (hbShortPress env st).2 = Event.toggleDetection :: tail ∧
      ∀ e ∈ tail, quiet e = true := by
  unfold hbShortPress
  dsimp only
  split_ifs <;>
    first
    | exact ⟨_, rfl, checkColorAndPlayAudio_quiet env _⟩
    | exact ⟨[], rfl, by simp⟩
    | exact ⟨[Event.stopSong], rfl, by simp [quiet]⟩

lemma hbShortPress_uiEq (env : TickEnv) (st : DeviceState) :
    uiEq (hbShortPress env st).1 st := by
  unfold hbShortPress
  dsimp only
  split_ifs <;>
    first
    | exact uiEq_trans (checkColorAndPlayAudio_uiEq env _) (by simp [uiEq])
    | simp [uiEq]

lemma hbRelease_skip (env : TickEnv) (st : DeviceState)
    (h : ¬(env.button = true ∧ st.lastButtonState = false)) :
    hbRelease env st = (st, []) := by
  unfold hbRelease
  rw [if_neg h]

lemma hbRelease_long (env : TickEnv) (st : DeviceState)
    (hbtn : env.button = true) (hlast : st.lastButtonState = false)
    (h : ¬(env.now - st.buttonPressStartTime < MODE_SWITCH_PRESS_DURATION ∧
        st.volumeAdjustedWhilePressed = false)) :
    hbRelease env st =
      ({ st with
          isEncoderPressed := false
          volumeAdjustedWhilePressed := false
          isLongPressing := false
          isSleepPressing := false }, []) := by
  unfold hbRelease
  rw [if_pos ⟨hbtn, hlast⟩]
  dsimp only
  rw [if_neg (by simpa using h)]

lemma hbRelease_short (env : TickEnv) (st : DeviceState)
    (hbtn : env.button = true) (hlast : st.lastButtonState = false)
    (ht : env.now - st.buttonPressStartTime < MODE_SWITCH_PRESS_DURATION)
    (hva : st.volumeAdjustedWhilePressed = false) :
    hbRelease env st =
      (let short := hbShortPress env { st with isEncoderPressed := false }
       ({ short.1 with
            volumeAdjustedWhilePressed := false
            isLongPressing := false
            isSleepPressing := false }, short.2)) := by
  unfold hbRelease
  rw [if_pos ⟨hbtn, hlast⟩]
  dsimp only
  rw [if_pos (by simpa using ⟨ht, hva⟩)]

/-! ## `handleButton` behaviour lemmas -/

lemma handleButton_press (env : TickEnv) (st : DeviceState)
    (hlast : st.lastButtonState = true) (hbtn : env.button = false) :
    handleButton env st =
      ({ st with
          buttonPressStartTime := env.now
          isLongPressing := true
          sleepPressStartTime := env.now
          isSleepPressing := true
          isEncoderPressed := true
          volumeAdjustedWhilePressed := false
          lastButtonState := false }, []) := by
  have hP := hbPressEdge_pos env st hbtn hlast
  have hns : ¬((hbPressEdge env st).isSleepPressing = true ∧ env.button = false ∧
      SLEEP_PRESS_DURATION ≤ env.now - (hbPressEdge env st).sleepPressStartTime) := by
    rw [hP]
    rintro ⟨-, -, hh⟩
    simp [SLEEP_PRESS_DURATION] at hh
  have hnm : ¬((hbPressEdge env st).isLongPressing = true ∧ env.button = false ∧
      MODE_SWITCH_PRESS_DURATION ≤ env.now -
        (hbPressEdge env st).buttonPressStartTime) := by
    rw [hP]
    rintro ⟨-, -, hh⟩
    simp [ MODE_SWITCH_PRESS_DURATION] at hh
  have hsk : ¬(env.button = true ∧ (hbPressEdge env st).lastButtonState = false) := by
    rintro ⟨hh, -⟩
    rw [hbtn] at hh
    exact absurd hh (by simp)
  simp only [handleButton]
  rw [if_neg hns, hbModeCheck_idle _ _ hnm, hbRelease_skip _ _ hsk, hP, hbtn]
  simp

lemma handleButton_sleepFire (env : TickEnv) (st : DeviceState)
    (hlast : st.lastButtonState = false) (hbtn : env.button = false)
    (hsp : st.isSleepPressing = true)
    (ht : SLEEP_PRESS_DURATION ≤ env.now - st.sleepPressStartTime) :
    handleButton env st =
      ({ st with asleep := true }, [Event.stopSong, Event.sleepRequested]) := by
  have hP := hbPressEdge_skip env st hlast
  simp only [handleButton]
  rw [hP, if_pos ⟨hsp, hbtn, ht⟩]

lemma handleButton_holdIdle (env : TickEnv) (st : DeviceState)
    (hlast : st.lastButtonState = false) (hbtn : env.button = false)
    (hns : ¬(st.isSleepPressing = true ∧
        SLEEP_PRESS_DURATION ≤ env.now - st.sleepPressStartTime))
    (hnm : ¬(st.isLongPressing = true ∧
        MODE_SWITCH_PRESS_DURATION ≤ env.now - st.buttonPressStartTime)) :
    handleButton env st = (st, []) := by
  have hP := hbPressEdge_skip env st hlast
  have hns2 : ¬(st.isSleepPressing = true ∧ env.button = false ∧
      SLEEP_PRESS_DURATION ≤ env.now - st.sleepPressStartTime) := by
    rintro ⟨h1, -, h2⟩
    exact hns ⟨h1, h2⟩
  have hnm2 : ¬(st.isLongPressing = true ∧ env.button = false ∧
      MODE_SWITCH_PRESS_DURATION ≤ env.now - st.buttonPressStartTime) := by
    rintro ⟨h1, -, h2⟩
    exact hnm ⟨h1, h2⟩
  have hsk : ¬(env.button = true ∧ st.lastButtonState = false) := by
    rintro ⟨hh, -⟩
    rw [hbtn] at hh
    exact absurd hh (by simp)
  simp only [handleButton]
  rw [hP, if_neg hns2, hbModeCheck_idle _ _ hnm2, hbRelease_skip _ _ hsk, hbtn,
    lastButton_self st false hlast]
  simp

lemma handleButton_holdFire (env : TickEnv) (st : DeviceState)
    (hlast : st.lastButtonState = false) (hbtn : env.button = false)
    (hns : ¬(st.isSleepPressing = true ∧
        SLEEP_PRESS_DURATION ≤ env.now - st.sleepPressStartTime))
    (hlp : st.isLongPressing = true)
    (ht : MODE_SWITCH_PRESS_DURATION ≤ env.now - st.buttonPressStartTime)
    (hva : st.volumeAdjustedWhilePressed = false) :
    handleButton env st =
      ({ (switchMode st).1 with
          isLongPressing := false
          lastButtonState := false }, (switchMode st).2) := by
  have hP := hbPressEdge_skip env st hlast
  have hns2 : ¬(st.isSleepPressing = true ∧ env.button = false ∧
      SLEEP_PRESS_DURATION ≤ env.now - st.sleepPressStartTime) := by
    rintro ⟨h1, -, h2⟩
    exact hns ⟨h1, h2⟩
  have hsk : ¬(env.button = true ∧
      ({ (switchMode st).1 with isLongPressing := false }).lastButtonState = false) := by
    rintro ⟨hh, -⟩
    rw [hbtn] at hh
    exact absurd hh (by simp)
  simp only [handleButton]
  rw [hP, if_neg hns2, hbModeCheck_fire env st hlp hbtn ht hva,
    hbRelease_skip _ _ hsk, hbtn]
  simp

lemma handleButton_holdSuppressed (env : TickEnv) (st : DeviceState)
    (hlast : st.lastButtonState = false) (hbtn : env.button = false)
    (hns : ¬(st.isSleepPressing = true ∧
        SLEEP_PRESS_DURATION ≤ env.now - st.sleepPressStartTime))
    (hlp : st.isLongPressing = true)
    (ht : MODE_SWITCH_PRESS_DURATION ≤ env.now - st.buttonPressStartTime)
    (hva : st.volumeAdjustedWhilePressed = true) :
    handleButton env st = ({ st with isLongPressing := false }, []) := by
  have hP := hbPressEdge_skip env st hlast
  have hns2 : ¬(st.isSleepPressing = true ∧ env.button = false ∧
      SLEEP_PRESS_DURATION ≤ env.now - st.sleepPressStartTime) := by
    rintro ⟨h1, -, h2⟩
    exact hns ⟨h1, h2⟩
  have hsk : ¬(env.button = true ∧
      ({ st with isLongPressing := false }).lastButtonState = false) := by
    rintro ⟨hh, -⟩
    rw [hbtn] at hh
    exact absurd hh (by simp)
  simp only [handleButton]
  rw [hP, if_neg hns2, hbModeCheck_suppressed env st hlp hbtn ht hva,
    hbRelease_skip _ _ hsk, hbtn]
  simp [hlast]

lemma handleButton_releaseLong (env : TickEnv) (st : DeviceState)
    (hlast : st.lastButtonState = false) (hbtn : env.button = true)
    (h : ¬(env.now - st.buttonPressStartTime < MODE_SWITCH_PRESS_DURATION ∧
        st.volumeAdjustedWhilePressed = false)) :
    handleButton env st =
      ({ st with
          isEncoderPressed := false
          volumeAdjustedWhilePressed := false
          isLongPressing := false
          isSleepPressing := false
          lastButtonState := true }, []) := by
  have hP := hbPressEdge_skip env st hlast
  have hns2 : ¬(st.isSleepPressing = true ∧ env.button = false ∧
      SLEEP_PRESS_DURATION ≤ env.now - st.sleepPressStartTime) := by
    rintro ⟨-, hh, -⟩
    rw [hbtn] at hh
    exact absurd hh (by simp)
  have hnm2 : ¬(st.isLongPressing = true ∧ env.button = false ∧
      MODE_SWITCH_PRESS_DURATION ≤ env.now - st.buttonPressStartTime) := by
    rintro ⟨-, hh, -⟩
    rw [hbtn] at hh
    exact absurd hh (by simp)
  simp only [handleButton]
  rw [hP, if_neg hns2, hbModeCheck_idle _ _ hnm2, hbRelease_long env st hbtn hlast h,
    hbtn]
  rfl

lemma handleButton_releaseShort (env : TickEnv) (st : DeviceState)
    (hlast : st.lastButtonState = false) (hbtn : env.button = true)
    (ht : env.now - st.buttonPressStartTime < MODE_SWITCH_PRESS_DURATION)
    (hva : st.volumeAdjustedWhilePressed = false) :
    handleButton env st =
      (let short := hbShortPress env { st with isEncoderPressed := false }
       ({ short.1 with
            volumeAdjustedWhilePressed := false
            isLongPressing := false
            isSleepPressing := false
            lastButtonState := true }, short.2)) := by
  have hP := hbPressEdge_skip env st hlast
  have hns2 : ¬(st.isSleepPressing = true ∧ env.button = false ∧
      SLEEP_PRESS_DURATION ≤ env.now - st.sleepPressStartTime) := by
    rintro ⟨-, hh, -⟩
    rw [hbtn] at hh
    exact absurd hh (by simp)
  have hnm2 : ¬(st.isLongPressing = true ∧ env.button = false ∧
      MODE_SWITCH_PRESS_DURATION ≤ env.now - st.buttonPressStartTime) := by
    rintro ⟨-, hh, -⟩
    rw [hbtn] at hh
    exact absurd hh (by simp)
  simp only [handleButton]
  rw [hP, if_neg hns2, hbModeCheck_idle _ _ hnm2,
    hbRelease_short env st hbtn hlast ht hva, hbtn]
  rfl

/-! ## Tick-level lemmas -/

/-- Weight of the armed mode-switch check: it can fire at most once per hold. -/
def lpW (st : DeviceState) : Nat := if st.isLongPressing = true then 1 else 0

/-- The hold invariant: from the press edge until release or sleep, the button
reads LOW, both timers are stamped with the press time and the hold flags are
armed. -/
def Held (t0 : Nat) (st : DeviceState) : Prop :=
  st.asleep = false ∧ st.lastButtonState = false ∧ st.isSleepPressing = true ∧
  st.sleepPressStartTime = t0 ∧ st.buttonPressStartTime = t0 ∧
  st.isEncoderPressed = true

lemma quiet_no_ctl {l : List Event} (h : ∀ e ∈ l, quiet e = true) :
    Event.modeSwitched ∉ l ∧ Event.sleepRequested ∉ l ∧
    Event.toggleDetection ∉ l ∧ ∀ v, Event.setVol v ∉ l := by
  refine ⟨fun hm => ?_, fun hm => ?_, fun hm => ?_, fun v hm => ?_⟩ <;>
    · have := h _ hm
      simp [quiet] at this

lemma handleEncoder_no_ctl (env : TickEnv) (st : DeviceState) :
    Event.modeSwitched ∉ (handleEncoder env st).2 ∧
    Event.sleepRequested ∉ (handleEncoder env st).2 ∧
    Event.toggleDetection ∉ (handleEncoder env st).2 := by
  rcases handleEncoder_evshape env st with h | ⟨v, h⟩ | h | h <;> simp [h]

lemma count_eq_zero_of_not_mem {l : List Event} {e : Event} (h : e ∉ l) :
    l.count e = 0 :=
  List.count_eq_zero.2 h

/-- A quiescent tick (button released and no phase change) reduces to the
sensing / continuation step alone. -/
lemma loopTick_quiescent (env : TickEnv) (st : DeviceState)
    (hbtn : env.button = true) (hlast : st.lastButtonState = true)
    (henc : encOf env = st.lastEncoded) (hasleep : st.asleep = false) :
    loopTick env st = sensingStep env st := by
  have hbP : hbPressEdge env st = st := by
    unfold hbPressEdge
    rw [if_neg]
    rintro ⟨hh, -⟩
    rw [hbtn] at hh
    exact absurd hh (by simp)
  have hb : handleButton env st = (st, []) := by
    simp only [handleButton, hbP]
    rw [if_neg (by rintro ⟨-, hh, -⟩; rw [hbtn] at hh; exact absurd hh (by simp))]
    rw [hbModeCheck_idle _ _ (by rintro ⟨-, hh, -⟩; rw [hbtn] at hh; exact absurd hh (by simp))]
    rw [hbRelease_skip _ _ (by rintro ⟨-, hh⟩; rw [hlast] at hh; exact absurd hh (by simp))]
    rw [hbtn, lastButton_self st true hlast]
    rfl
  have hz : decodeDir st.lastEncoded (encOf env) = 0 := by
    rw [henc]
    exact decodeDir_self _
  have he : handleEncoder env st = (st, []) := by
    rw [handleEncoder_zero env st hz, lastEncoded_self st (encOf env) henc.symm]
  simp only [loopTick, hb, hasleep]
  simp [he]

/-- A held tick at or past the sleep threshold fires the terminal sleep
sequence. -/
lemma loopTick_sleepFire (env : TickEnv) (st : DeviceState) (t0 : Nat)
    (hH : Held t0 st) (hbtn : env.button = false)
    (ht : SLEEP_PRESS_DURATION ≤ env.now - t0) :
    loopTick env st =
      ({ st with asleep := true }, [Event.stopSong, Event.sleepRequested]) := by
  obtain ⟨ha, hlast, hsp, hspt, hbpt, hep⟩ := hH
  have hb : handleButton env st =
      ({ st with asleep := true }, [Event.stopSong, Event.sleepRequested]) :=
    handleButton_sleepFire env st hlast hbtn hsp (by rw [hspt]; exact ht)
  simp [loopTick, hb]
lemma loopTick_compose (env : TickEnv) (st : DeviceState) (b1 : DeviceState)
    (b2 : List Event) (hb : handleButton env st = (b1, b2))
    (hasleep : b1.asleep = false) :
    (loopTick env st).1 = (sensingStep env (handleEncoder env b1).1).1 ∧
    (loopTick env st).2 =
      b2 ++ (handleEncoder env b1).2 ++ (sensingStep env (handleEncoder env b1).1).2 := by
  simp [loopTick, hb, hasleep]

lemma postButton_fields (env : TickEnv) (b1 : DeviceState) :
    (sensingStep env (handleEncoder env b1).1).1.asleep = b1.asleep ∧
    (sensingStep env (handleEncoder env b1).1).1.lastButtonState = b1.lastButtonState ∧
    (sensingStep env (handleEncoder env b1).1).1.isSleepPressing = b1.isSleepPressing ∧
    (sensingStep env (handleEncoder env b1).1).1.sleepPressStartTime = b1.sleepPressStartTime ∧
    (sensingStep env (handleEncoder env b1).1).1.buttonPressStartTime = b1.buttonPressStartTime ∧
    (sensingStep env (handleEncoder env b1).1).1.isEncoderPressed = b1.isEncoderPressed ∧
    (sensingStep env (handleEncoder env b1).1).1.isLongPressing = b1.isLongPressing ∧
    (b1.volumeAdjustedWhilePressed = true →
      (sensingStep env (handleEncoder env b1).1).1.volumeAdjustedWhilePressed = true) := by
  obtain ⟨u1, u2, u3, u4, u5, u6, u7, u8, u9, u10, u11, u12, u13, u14, u15⟩ :=
    sensingStep_uiEq env (handleEncoder env b1).1
  obtain ⟨e1, e2, e3, e4, e5, e6, e7, e8, e9, e10, e11, e12, e13⟩ :=
    handleEncoder_btnEq env b1
  refine ⟨u14.trans e11, u1.trans e5, u5.trans e9, u4.trans e8, u2.trans e6,
    u6.trans e10, u3.trans e7, fun hv => ?_⟩
  rw [u7]
  exact handleEncoder_volAdj_mono env b1 hv

lemma postButton_events (env : TickEnv) (b1 : DeviceState) :
    Event.modeSwitched ∉ (handleEncoder env b1).2 ∧
    Event.sleepRequested ∉ (handleEncoder env b1).2 ∧
    Event.toggleDetection ∉ (handleEncoder env b1).2 ∧
    Event.modeSwitched ∉ (sensingStep env (handleEncoder env b1).1).2 ∧
    Event.sleepRequested ∉ (sensingStep env (handleEncoder env b1).1).2 ∧
    Event.toggleDetection ∉ (sensingStep env (handleEncoder env b1).1).2 := by
  obtain ⟨m1, s1, t1⟩ := handleEncoder_no_ctl env b1
  obtain ⟨m2, s2, t2, -⟩ := quiet_no_ctl (sensingStep_quiet env (handleEncoder env b1).1)
  exact ⟨m1, s1, t1, m2, s2, t2⟩

/-- Behaviour of one full tick while the button is held below the sleep
threshold: the hold invariant is preserved, no sleep request and no toggle is
emitted, the mode switch fires at most once per hold (it consumes the armed
flag), a prior volume adjustment suppresses it, and below the mode-switch
threshold nothing fires at all. -/
lemma loopTick_hold (env : TickEnv) (st : DeviceState) (t0 : Nat)
    (hH : Held t0 st) (hbtn : env.button = false)
    (ht : env.now - t0 < SLEEP_PRESS_DURATION) :
    Held t0 (loopTick env st).1 ∧
    Event.sleepRequested ∉ (loopTick env st).2 ∧
    Event.toggleDetection ∉ (loopTick env st).2 ∧
    ((loopTick env st).2.count Event.modeSwitched + lpW (loopTick env st).1 ≤ lpW st) ∧
    (st.volumeAdjustedWhilePressed = true →
      (loopTick env st).1.volumeAdjustedWhilePressed = true ∧
      (loopTick env st).2.count Event.modeSwitched = 0) ∧
    (env.now - t0 < MODE_SWITCH_PRESS_DURATION →
      (loopTick env st).2.count Event.modeSwitched = 0 ∧
      (loopTick env st).1.isLongPressing = st.isLongPressing) := by
  obtain ⟨ha, hlast, hsp, hspt, hbpt, hep⟩ := hH
  have hns : ¬(st.isSleepPressing = true ∧
      SLEEP_PRESS_DURATION ≤ env.now - st.sleepPressStartTime) := by
    rintro ⟨-, hh⟩
    rw [hspt] at hh
    omega
  by_cases hfire : st.isLongPressing = true ∧
      MODE_SWITCH_PRESS_DURATION ≤ env.now - st.buttonPressStartTime
  · by_cases hva : st.volumeAdjustedWhilePressed = true
    · -- threshold reached but a volume adjustment suppresses the switch
      have hb := handleButton_holdSuppressed env st hlast hbtn hns hfire.1 hfire.2 hva
      obtain ⟨hc1, hc2⟩ := loopTick_compose env st _ _ hb (by simpa using ha)
      obtain ⟨f1, f2, f3, f4, f5, f6, f7, f8⟩ := postButton_fields env
        ({ st with isLongPressing := false })
      obtain ⟨m1, s1, t1, m2, s2, t2⟩ := postButton_events env
        ({ st with isLongPressing := false })
      have hlpf : (loopTick env st).1.isLongPressing = false := by rw [hc1, f7]
      refine ⟨⟨?_, ?_, ?_, ?_, ?_, ?_⟩, ?_, ?_, ?_, ?_, ?_⟩
      · rw [hc1, f1]; exact ha
      · rw [hc1, f2]; exact hlast
      · rw [hc1, f3]; exact hsp
      · rw [hc1, f4]; exact hspt
      · rw [hc1, f5]; exact hbpt
      · rw [hc1, f6]; exact hep
      · rw [hc2]; simp [s1, s2]
      · rw [hc2]; simp [t1, t2]
      · rw [hc2]
        simp [List.count_append, count_eq_zero_of_not_mem m1,
          count_eq_zero_of_not_mem m2, lpW, hlpf, hfire.1]
      · intro hv
        constructor
        · rw [hc1]; exact f8 (by simpa using hv)
        · rw [hc2]
          simp [List.count_append, count_eq_zero_of_not_mem m1,
            count_eq_zero_of_not_mem m2]
      · intro hlt
        rw [hbpt] at hfire
        omega
    · -- threshold reached: the mode switch fires and disarms itself
      have hva2 : st.volumeAdjustedWhilePressed = false := by simpa using hva
      have hb := handleButton_holdFire env st hlast hbtn hns hfire.1 hfire.2 hva2
      obtain ⟨sw1, sw2, sw3, sw4, sw5, sw6, sw7, sw8, sw9, sw10, sw11, sw12,
        sw13, sw14, sw15⟩ := switchMode_fields st
      set b1 : DeviceState :=
        { (switchMode st).1 with isLongPressing := false, lastButtonState := false } with hb1
      have hasleepb : b1.asleep = false := by
        show (switchMode st).1.asleep = false
        rw [sw14]; exact ha
      obtain ⟨hc1, hc2⟩ := loopTick_compose env st b1 (switchMode st).2 hb hasleepb
      obtain ⟨f1, f2, f3, f4, f5, f6, f7, f8⟩ := postButton_fields env b1
      obtain ⟨m1, s1, t1, m2, s2, t2⟩ := postButton_events env b1
      obtain ⟨k, hk⟩ := switchMode_events st
      have hlpf : (loopTick env st).1.isLongPressing = false := by
        rw [hc1, f7]
      refine ⟨⟨?_, ?_, ?_, ?_, ?_, ?_⟩, ?_, ?_, ?_, ?_, ?_⟩
      · rw [hc1, f1]; exact hasleepb
      · rw [hc1, f2]
      · rw [hc1, f3]
        show (switchMode st).1.isSleepPressing = true
        rw [sw5]; exact hsp
      · rw [hc1, f4]
        show (switchMode st).1.sleepPressStartTime = t0
        rw [sw4]; exact hspt
      · rw [hc1, f5]
        show (switchMode st).1.buttonPressStartTime = t0
        rw [sw2]; exact hbpt
      · rw [hc1, f6]
        show (switchMode st).1.isEncoderPressed = true
        rw [sw6]; exact hep
      · rw [hc2]; simp [hk, s1, s2]
      · rw [hc2]; simp [hk, t1, t2]
      · rw [hc2]
        simp [List.count_append, count_eq_zero_of_not_mem m1,
          count_eq_zero_of_not_mem m2, lpW, hlpf, hfire.1, hk]
      · intro hv
        rw [hva2] at hv
        exact absurd hv (by simp)
      · intro hlt
        rw [hbpt] at hfire
        omega
  · -- below the mode-switch threshold (or already disarmed): plain hold tick
    have hb := handleButton_holdIdle env st hlast hbtn hns
      (by rintro ⟨h1, h2⟩; rw [hbpt] at h2; exact hfire ⟨h1, by rw [hbpt]; exact h2⟩)
    obtain ⟨hc1, hc2⟩ := loopTick_compose env st st [] hb ha
    obtain ⟨f1, f2, f3, f4, f5, f6, f7, f8⟩ := postButton_fields env st
    obtain ⟨m1, s1, t1, m2, s2, t2⟩ := postButton_events env st
    have hcnt : (loopTick env st).2.count Event.modeSwitched = 0 := by
      rw [hc2]
      simp [List.count_append, count_eq_zero_of_not_mem m1,
        count_eq_zero_of_not_mem m2]
    have hlpf : (loopTick env st).1.isLongPressing = st.isLongPressing := by
      rw [hc1, f7]
    refine ⟨⟨?_, ?_, ?_, ?_, ?_, ?_⟩, ?_, ?_, ?_, ?_, ?_⟩
    · rw [hc1, f1]; exact ha
    · rw [hc1, f2]; exact hlast
    · rw [hc1, f3]; exact hsp
    · rw [hc1, f4]; exact hspt
    · rw [hc1, f5]; exact hbpt
    · rw [hc1, f6]; exact hep
    · rw [hc2]; simp [s1, s2]
    · rw [hc2]; simp [t1, t2]
    · simp [lpW, hcnt, hlpf]
    · intro hv
      exact ⟨by rw [hc1]; exact f8 hv, hcnt⟩
    · intro hlt
      exact ⟨hcnt, hlpf⟩

/-- The press-edge tick: afterwards the hold invariant carries the press time
and the mode-switch check is armed; no intent fires on this tick's button
stage. -/
lemma loopTick_press (env : TickEnv) (st : DeviceState)
    (hlast : st.lastButtonState = true) (hbtn : env.button = false)
    (hasleep : st.asleep = false) :
    Held env.now (loopTick env st).1 ∧
    (loopTick env st).1.isLongPressing = true ∧
    Event.modeSwitched ∉ (loopTick env st).2 ∧
    Event.toggleDetection ∉ (loopTick env st).2 ∧
    Event.sleepRequested ∉ (loopTick env st).2 := by
  have hb := handleButton_press env st hlast hbtn
  obtain ⟨hc1, hc2⟩ := loopTick_compose env st _ [] hb (by exact hasleep)
  obtain ⟨f1, f2, f3, f4, f5, f6, f7, f8⟩ := postButton_fields env
    ({ st with
        buttonPressStartTime := env.now
        isLongPressing := true
        sleepPressStartTime := env.now
        isSleepPressing := true
        isEncoderPressed := true
        volumeAdjustedWhilePressed := false
        lastButtonState := false })
  obtain ⟨m1, s1, t1, m2, s2, t2⟩ := postButton_events env
    ({ st with
        buttonPressStartTime := env.now
        isLongPressing := true
        sleepPressStartTime := env.now
        isSleepPressing := true
        isEncoderPressed := true
        volumeAdjustedWhilePressed := false
        lastButtonState := false })
  refine ⟨⟨?_, ?_, ?_, ?_, ?_, ?_⟩, ?_, ?_, ?_, ?_⟩
  · rw [hc1, f1]; exact hasleep
  · rw [hc1, f2]
  · rw [hc1, f3]
  · rw [hc1, f4]
  · rw [hc1, f5]
  · rw [hc1, f6]
  · rw [hc1, f7]
  · rw [hc2]; simp [m1, m2]
  · rw [hc2]; simp [t1, t2]
  · rw [hc2]; simp [s1, s2]
/-- Volume/flag facts after the encoder and sensing stages, given the encoder
emitted nothing and left volume and flag alone. -/
lemma postButton_boundary (env : TickEnv) (b1 : DeviceState)
    (hpress : b1.isEncoderPressed = true)
    (hd : decodeDir b1.lastEncoded (encOf env) = 0 ∨
      (decodeDir b1.lastEncoded (encOf env) = 1 ∧ b1.currentVolume ≤ MIN_VOLUME) ∨
      (decodeDir b1.lastEncoded (encOf env) = -1 ∧ MAX_VOLUME ≤ b1.currentVolume)) :
    (sensingStep env (handleEncoder env b1).1).1.currentVolume = b1.currentVolume ∧
    (sensingStep env (handleEncoder env b1).1).1.volumeAdjustedWhilePressed =
      b1.volumeAdjustedWhilePressed ∧
    (sensingStep env (handleEncoder env b1).1).1.lastEncoded = encOf env ∧
    (∀ v, Event.setVol v ∉ (handleEncoder env b1).2) ∧
    (∀ v, Event.setVol v ∉ (sensingStep env (handleEncoder env b1).1).2) := by
  obtain ⟨hv, hva, hev⟩ := handleEncoder_bound env b1 hpress hd
  obtain ⟨u1, u2, u3, u4, u5, u6, u7, u8, u9, u10, u11, u12, u13, u14, u15⟩ :=
    sensingStep_uiEq env (handleEncoder env b1).1
  obtain ⟨-, -, -, hsv⟩ := quiet_no_ctl (sensingStep_quiet env (handleEncoder env b1).1)
  refine ⟨u13.trans hv, u7.trans hva, ?_, ?_, hsv⟩
  · rw [u10]
    exact handleEncoder_lastEncoded env b1
  · intro v
    rw [hev]
    simp

/-- A held tick below the mode-switch threshold with all rotations at the
volume boundary: nothing changes and nothing fires. -/
lemma loopTick_holdBoundary (env : TickEnv) (st : DeviceState) (t0 : Nat)
    (hH : Held t0 st) (hbtn : env.button = false)
    (ht : env.now - t0 < MODE_SWITCH_PRESS_DURATION)
    (hva : st.volumeAdjustedWhilePressed = false)
    (hd : decodeDir st.lastEncoded (encOf env) = 0 ∨
      (decodeDir st.lastEncoded (encOf env) = 1 ∧ st.currentVolume ≤ MIN_VOLUME) ∨
      (decodeDir st.lastEncoded (encOf env) = -1 ∧ MAX_VOLUME ≤ st.currentVolume)) :
    Held t0 (loopTick env st).1 ∧
    (loopTick env st).1.currentVolume = st.currentVolume ∧
    (loopTick env st).1.volumeAdjustedWhilePressed = false ∧
    (loopTick env st).1.lastEncoded = encOf env ∧
    (∀ v, Event.setVol v ∉ (loopTick env st).2) ∧
    Event.toggleDetection ∉ (loopTick env st).2 := by
  obtain ⟨ha, hlast, hsp, hspt, hbpt, hep⟩ := hH
  have hns : ¬(st.isSleepPressing = true ∧
      SLEEP_PRESS_DURATION ≤ env.now - st.sleepPressStartTime) := by
    rintro ⟨-, hh⟩
    rw [hspt] at hh
    simp [SLEEP_PRESS_DURATION] at hh
    simp [ MODE_SWITCH_PRESS_DURATION] at ht
    omega
  have hnm : ¬(st.isLongPressing = true ∧
      MODE_SWITCH_PRESS_DURATION ≤ env.now - st.buttonPressStartTime) := by
    rintro ⟨-, hh⟩
    rw [hbpt] at hh
    omega
  have hb := handleButton_holdIdle env st hlast hbtn hns hnm
  obtain ⟨hc1, hc2⟩ := loopTick_compose env st st [] hb ha
  obtain ⟨f1, f2, f3, f4, f5, f6, f7, f8⟩ := postButton_fields env st
  obtain ⟨hbv, hbva, hble, hbe1, hbe2⟩ := postButton_boundary env st hep hd
  obtain ⟨m1, s1, t1, m2, s2, t2⟩ := postButton_events env st
  refine ⟨⟨?_, ?_, ?_, ?_, ?_, ?_⟩, ?_, ?_, ?_, ?_, ?_⟩
  · rw [hc1, f1]; exact ha
  · rw [hc1, f2]; exact hlast
  · rw [hc1, f3]; exact hsp
  · rw [hc1, f4]; exact hspt
  · rw [hc1, f5]; exact hbpt
  · rw [hc1, f6]; exact hep
  · rw [hc1]; exact hbv
  · rw [hc1, hbva]; exact hva
  · rw [hc1]; exact hble
  · intro v
    rw [hc2]
    simp [hbe1 v, hbe2 v]
  · rw [hc2]; simp [t1, t2]

/-- A release tick after a hold that adjusted the volume fires nothing. -/
lemma loopTick_releaseSuppressed (env : TickEnv) (st : DeviceState) (t0 : Nat)
    (hH : Held t0 st) (hbtn : env.button = true)
    (hva : st.volumeAdjustedWhilePressed = true) :
    Event.toggleDetection ∉ (loopTick env st).2 ∧
    Event.modeSwitched ∉ (loopTick env st).2 ∧
    Event.sleepRequested ∉ (loopTick env st).2 := by
  obtain ⟨ha, hlast, hsp, hspt, hbpt, hep⟩ := hH
  have hb := handleButton_releaseLong env st hlast hbtn
    (by rintro ⟨-, hh⟩; rw [hva] at hh; exact absurd hh (by simp))
  obtain ⟨hc1, hc2⟩ := loopTick_compose env st _ [] hb (by exact ha)
  obtain ⟨m1, s1, t1, m2, s2, t2⟩ := postButton_events env
    ({ st with
        isEncoderPressed := false
        volumeAdjustedWhilePressed := false
        isLongPressing := false
        isSleepPressing := false
        lastButtonState := true })
  refine ⟨?_, ?_, ?_⟩ <;> rw [hc2] <;> simp [t1, t2, m1, m2, s1, s2]

/-- A short release with no volume adjustment fires the detection toggle, and
the tick changes no volume and emits no volume intent. -/
lemma loopTick_releaseToggle (env : TickEnv) (st : DeviceState) (t0 : Nat)
    (hH : Held t0 st) (hbtn : env.button = true)
    (hva : st.volumeAdjustedWhilePressed = false)
    (ht : env.now - t0 < MODE_SWITCH_PRESS_DURATION) :
    Event.toggleDetection ∈ (loopTick env st).2 ∧
    (∀ v, Event.setVol v ∉ (loopTick env st).2) ∧
    (loopTick env st).1.currentVolume = st.currentVolume := by
  obtain ⟨ha, hlast, hsp, hspt, hbpt, hep⟩ := hH
  have hb := handleButton_releaseShort env st hlast hbtn (by rw [hbpt]; exact ht) hva
  obtain ⟨u1, u2, u3, u4, u5, u6, u7, u8, u9, u10, u11, u12, u13, u14, u15⟩ :=
    hbShortPress_uiEq env ({ st with isEncoderPressed := false })
  set short := hbShortPress env ({ st with isEncoderPressed := false }) with hshort
  set b1 : DeviceState :=
    { short.1 with
        volumeAdjustedWhilePressed := false
        isLongPressing := false
        isSleepPressing := false
        lastButtonState := true } with hb1
  have hasleepb : b1.asleep = false := by
    show short.1.asleep = false
    rw [u14]
    exact ha
  obtain ⟨hc1, hc2⟩ := loopTick_compose env st b1 short.2 hb hasleepb
  have hpb : b1.isEncoderPressed = false := by
    show short.1.isEncoderPressed = false
    rw [u6]
  have hvolb : b1.currentVolume = st.currentVolume := by
    show short.1.currentVolume = st.currentVolume
    rw [u13]
  obtain ⟨hev, heva, hesv⟩ := handleEncoder_released env b1 hpb
  obtain ⟨w1, w2, w3, w4, w5, w6, w7, w8, w9, w10, w11, w12, w13, w14, w15⟩ :=
    sensingStep_uiEq env (handleEncoder env b1).1
  obtain ⟨-, -, -, hsv⟩ := quiet_no_ctl (sensingStep_quiet env (handleEncoder env b1).1)
  obtain ⟨tail, htail, hqt⟩ := hbShortPress_events env ({ st with isEncoderPressed := false })
  obtain ⟨-, -, -, hsvtail⟩ := quiet_no_ctl hqt
  refine ⟨?_, ?_, ?_⟩
  · rw [hc2]
    have : Event.toggleDetection ∈ short.2 := by
      rw [hshort, htail]
      simp
    simp [this]
  · intro v
    rw [hc2]
    have h1 : Event.setVol v ∉ short.2 := by
      rw [hshort, htail]
      simp only [List.mem_cons]
      rintro (hh | hh)
      · exact absurd hh (by simp)
      · exact hsvtail v hh
    simp only [List.mem_append]
    rintro ((hh | hh) | hh)
    · exact h1 hh
    · exact hesv v hh
    · exact hsv v hh
  · rw [hc1, w13, hev, hvolb]

/-! ## Run-level lemmas -/

lemma runDevice_asleep (l : List TickEnv) (st : DeviceState)
    (h : st.asleep = true) : runDevice l st = (st, []) := by
  cases l with
  | nil => rfl
  | cons e rest => simp [runDevice, h]

lemma runDevice_cons_awake (e : TickEnv) (l : List TickEnv) (st : DeviceState)
    (h : st.asleep = false) :
    runDevice (e :: l) st =
      ((runDevice l (loopTick e st).1).1,
        (loopTick e st).2 ++ (runDevice l (loopTick e st).1).2) := by
  simp [runDevice, h]

lemma runDevice_append (a b : List TickEnv) (st : DeviceState) :
    runDevice (a ++ b) st =
      ((runDevice b (runDevice a st).1).1,
        (runDevice a st).2 ++ (runDevice b (runDevice a st).1).2) := by
  induction a generalizing st with
  | nil => simp [runDevice]
  | cons e rest ih =>
    by_cases h : st.asleep = true
    · rw [runDevice_asleep (e :: rest ++ b) st h, runDevice_asleep (e :: rest) st h,
        runDevice_asleep b st h]
      simp
    · have h2 : st.asleep = false := by simpa using h
      rw [List.cons_append, runDevice_cons_awake e (rest ++ b) st h2,
        runDevice_cons_awake e rest st h2, ih]
      simp

/-- Counting intents over a whole held run: no toggle, at most one sleep
request (exactly one once some tick reaches the sleep threshold), and at most
one mode switch (bounded by the armed flag). -/
lemma run_hold_counts (inputs : List TickEnv) (st : DeviceState) (t0 : Nat)
    (hH : Held t0 st) (hlow : ∀ e ∈ inputs, e.button = false) :
    (runDevice inputs st).2.count Event.toggleDetection = 0 ∧
    (runDevice inputs st).2.count Event.sleepRequested ≤ 1 ∧
    ((∃ e ∈ inputs, SLEEP_PRESS_DURATION ≤ e.now - t0) →
      (runDevice inputs st).2.count Event.sleepRequested = 1) ∧
    (runDevice inputs st).2.count Event.modeSwitched ≤ lpW st := by
  induction inputs generalizing st with
  | nil =>
    simp [runDevice]
  | cons e rest ih =>
    have hbtn : e.button = false := hlow e (by simp)
    have hlow2 : ∀ x ∈ rest, x.button = false := fun x hx => hlow x (by simp [hx])
    rw [runDevice_cons_awake e rest st hH.1]
    by_cases hq : SLEEP_PRESS_DURATION ≤ e.now - t0
    · have hT := loopTick_sleepFire e st t0 hH hbtn hq
      have hrest : runDevice rest (loopTick e st).1 = ((loopTick e st).1, []) := by
        apply runDevice_asleep
        rw [hT]
      rw [hT] at hrest ⊢
      rw [hrest]
      simp [List.count_cons]
    · have hq2 : e.now - t0 < SLEEP_PRESS_DURATION := by omega
      obtain ⟨hHe, hsleep, htog, hmode, -, -⟩ := loopTick_hold e st t0 hH hbtn hq2
      obtain ⟨ih1, ih2, ih3, ih4⟩ := ih (loopTick e st).1 hHe hlow2
      refine ⟨?_, ?_, ?_, ?_⟩
      · simp [List.count_append, count_eq_zero_of_not_mem htog, ih1]
      · simp [List.count_append, count_eq_zero_of_not_mem hsleep, ih2]
      · rintro ⟨x, hx, hxq⟩
        rcases List.mem_cons.1 hx with hh | hh
        · subst hh
          exact absurd hxq hq
        · simp [List.count_append, count_eq_zero_of_not_mem hsleep,
            ih3 ⟨x, hh, hxq⟩]
      · have := ih4
        simp only [List.count_append]
        omega

/-- A held run strictly below the mode-switch threshold: nothing fires and the
armed flag is untouched. -/
lemma run_hold_sub3000 (inputs : List TickEnv) (st : DeviceState) (t0 : Nat)
    (hH : Held t0 st) (hlow : ∀ e ∈ inputs, e.button = false)
    (ht : ∀ e ∈ inputs, e.now - t0 < MODE_SWITCH_PRESS_DURATION) :
    Held t0 (runDevice inputs st).1 ∧
    Event.modeSwitched ∉ (runDevice inputs st).2 ∧
    Event.toggleDetection ∉ (runDevice inputs st).2 ∧
    Event.sleepRequested ∉ (runDevice inputs st).2 := by
  induction inputs generalizing st with
  | nil =>
    simpa [runDevice] using hH
  | cons e rest ih =>
    have hbtn : e.button = false := hlow e (by simp)
    have ht1 : e.now - t0 < MODE_SWITCH_PRESS_DURATION := ht e (by simp)
    have ht5 : e.now - t0 < SLEEP_PRESS_DURATION := by
      simp [ MODE_SWITCH_PRESS_DURATION] at ht1
      simp [SLEEP_PRESS_DURATION]
      omega
    obtain ⟨hHe, hsleep, htog, -, -, hsub⟩ := loopTick_hold e st t0 hH hbtn ht5
    obtain ⟨hcnt, -⟩ := hsub ht1
    have hmode : Event.modeSwitched ∉ (loopTick e st).2 := List.count_eq_zero.1 hcnt
    obtain ⟨ih1, ih2, ih3, ih4⟩ := ih (loopTick e st).1 hHe
      (fun x hx => hlow x (by simp [hx])) (fun x hx => ht x (by simp [hx]))
    rw [runDevice_cons_awake e rest st hH.1]
    refine ⟨ih1, ?_, ?_, ?_⟩ <;> simp_all

/-- A held run after a volume adjustment: the flag persists and neither the
mode switch nor the toggle nor sleep fires (below the sleep threshold). -/
lemma run_hold_volAdj (inputs : List TickEnv) (st : DeviceState) (t0 : Nat)
    (hH : Held t0 st) (hva : st.volumeAdjustedWhilePressed = true)
    (hlow : ∀ e ∈ inputs, e.button = false)
    (ht : ∀ e ∈ inputs, e.now - t0 < SLEEP_PRESS_DURATION) :
    Held t0 (runDevice inputs st).1 ∧
    (runDevice inputs st).1.volumeAdjustedWhilePressed = true ∧
    Event.modeSwitched ∉ (runDevice inputs st).2 ∧
    Event.toggleDetection ∉ (runDevice inputs st).2 ∧
    Event.sleepRequested ∉ (runDevice inputs st).2 := by
  induction inputs generalizing st with
  | nil =>
    simp only [runDevice]
    exact ⟨hH, hva, by simp, by simp, by simp⟩
  | cons e rest ih =>
    have hbtn : e.button = false := hlow e (by simp)
    have ht5 : e.now - t0 < SLEEP_PRESS_DURATION := ht e (by simp)
    obtain ⟨hHe, hsleep, htog, -, hvap, -⟩ := loopTick_hold e st t0 hH hbtn ht5
    obtain ⟨hva2, hcnt⟩ := hvap hva
    have hmode : Event.modeSwitched ∉ (loopTick e st).2 := List.count_eq_zero.1 hcnt
    obtain ⟨ih1, ih2, ih3, ih4, ih5⟩ := ih (loopTick e st).1 hHe hva2
      (fun x hx => hlow x (by simp [hx])) (fun x hx => ht x (by simp [hx]))
    rw [runDevice_cons_awake e rest st hH.1]
    refine ⟨ih1, ih2, ?_, ?_, ?_⟩ <;> simp_all

/-- A held run below the mode-switch threshold whose every decoded rotation is
against the volume boundary: volume and flag never change and no volume intent
is emitted. -/
lemma run_hold_boundary (inputs : List TickEnv) (st : DeviceState) (t0 : Nat)
    (v : Int) (hH : Held t0 st) (hva : st.volumeAdjustedWhilePressed = false)
    (hvol : st.currentVolume = v)
    (hlow : ∀ e ∈ inputs, e.button = false)
    (ht : ∀ e ∈ inputs, e.now - t0 < MODE_SWITCH_PRESS_DURATION)
    (hd : ∀ d ∈ decodes st.lastEncoded (inputs.map encOf),
      d = 0 ∨ (d = 1 ∧ v ≤ MIN_VOLUME) ∨ (d = -1 ∧ MAX_VOLUME ≤ v)) :
    Held t0 (runDevice inputs st).1 ∧
    (runDevice inputs st).1.currentVolume = v ∧
    (runDevice inputs st).1.volumeAdjustedWhilePressed = false ∧
    (∀ w, Event.setVol w ∉ (runDevice inputs st).2) ∧
    Event.toggleDetection ∉ (runDevice inputs st).2 := by
  induction inputs generalizing st with
  | nil =>
    simp only [runDevice]
    exact ⟨hH, hvol, hva, by simp, by simp⟩
  | cons e rest ih =>
    have hbtn : e.button = false := hlow e (by simp)
    have ht1 : e.now - t0 < MODE_SWITCH_PRESS_DURATION := ht e (by simp)
    have hd1 := hd (decodeDir st.lastEncoded (encOf e)) (by simp [decodes])
    rw [← hvol] at hd1
    obtain ⟨hHe, hvole, hvae, hlee, hsve, htoge⟩ :=
      loopTick_holdBoundary e st t0 ⟨hH.1, hH.2.1, hH.2.2.1, hH.2.2.2.1,
        hH.2.2.2.2.1, hH.2.2.2.2.2⟩ hbtn ht1 hva hd1
    have hvole2 : (loopTick e st).1.currentVolume = v := by rw [hvole, hvol]
    have hdrest : ∀ d ∈ decodes (loopTick e st).1.lastEncoded (rest.map encOf),
        d = 0 ∨ (d = 1 ∧ v ≤ MIN_VOLUME) ∨ (d = -1 ∧ MAX_VOLUME ≤ v) := by
      rw [hlee]
      intro d hdm
      exact hd d (by simp [decodes, hdm])
    obtain ⟨ih1, ih2, ih3, ih4, ih5⟩ := ih (loopTick e st).1 hHe hvae hvole2
      (fun x hx => hlow x (by simp [hx])) (fun x hx => ht x (by simp [hx])) hdrest
    rw [runDevice_cons_awake e rest st hH.1]
    refine ⟨ih1, ih2, ih3, ?_, ?_⟩
    · intro w
      simp only [List.mem_append]
      rintro (hh | hh)
      · exact hsve w hh
      · exact ih4 w hh
    · simp_all

/-! ## Concrete states and ticks for witnesses and counterexamples -/

/-- The boot state of the sketch (lines 150-176): Detection mode, sensing off,
no playback, default volume 19, all counters and grids clear, button read HIGH. -/
def initialState : DeviceState := {
  currentMode := OperationMode.colorRecognition
  isColorDetectionEnabled := false
  isLooping := false
  currentPlayingFile := ""
  currentVolume := 19
  lastButtonState := true
  buttonPressStartTime := 0
  isLongPressing := false
  sleepPressStartTime := 0
  isSleepPressing := false
  isEncoderPressed := false
  volumeAdjustedWhilePressed := false
  lastRotationTime := 0
  lastTrackNavigationTime := 0
  lastEncoded := 0
  lastDir := 0
  validRotations := 0
  colorCounters := fun _ => 0
  painterCollectionStatus := fun _ _ => false
  asleep := false }

/-- A tick with the given time, button level and encoder phases; the classifier
sees nothing and the SD/audio collaborators succeed. -/
def mkTick (t : Nat) (btn a b : Bool) : TickEnv := {
  now := t
  button := btn
  encA := a
  encB := b
  detect := none
  marks := []
  sdExists := fun _ => true
  connectOK := fun _ => true
  audioRunning := false }

/-! ## Claim C5 -/

/-- C5 counterexample: in a Painter-Collection state with one collected
sub-element, `switchMode` (Collection → Detection) leaves the ThemeGrid entry
set — the claim's "sets every ThemeGrid entry to false in either direction"
fails on this input. -/
def stC5cex : DeviceState :=
  { initialState with
      currentMode := OperationMode.painterCollection
      painterCollectionStatus := fun p c => decide (p = 0 ∧ c = 0) }

/-- C5: the claim as stated is false: a Collection → Detection switch does not
clear the ThemeGrid (grid entry (0,0) survives `switchMode`). -/
theorem C5_counterexample :
    stC5cex.currentMode = OperationMode.painterCollection ∧
    stC5cex.painterCollectionStatus 0 0 = true ∧
    (switchMode stC5cex).1.painterCollectionStatus 0 0 = true := by
  decide

/-- C5 (amended): every mode switch stops playback and clears the play target
(issuing no playback request of its own), zeroes all RepeatCounters, and
toggles the Mode; the ThemeGrids are wholesale cleared only when the **new**
mode is Collection (Detection → Collection direction), and are left untouched
when switching Collection → Detection. -/
theorem C5_mode_switch (st : DeviceState) :
    (switchMode st).2 =
      [Event.stopSong,
       Event.blinkE (if st.currentMode = OperationMode.colorRecognition then 2 else 1),
       Event.modeSwitched] ∧
    (∀ f, Event.audioRequest f ∉ (switchMode st).2) ∧
    (∀ f, Event.connect f ∉ (switchMode st).2) ∧
    (switchMode st).1.isLooping = false ∧
    (switchMode st).1.currentPlayingFile = "" ∧
    (∀ i, (switchMode st).1.colorCounters i = 0) ∧
    ((switchMode st).1.currentMode =
      if st.currentMode = OperationMode.colorRecognition then
        OperationMode.painterCollection
      else OperationMode.colorRecognition) ∧
    (st.currentMode = OperationMode.colorRecognition →
      ∀ p c, (switchMode st).1.painterCollectionStatus p c = false) ∧
    (st.currentMode = OperationMode.painterCollection →
      (switchMode st).1.painterCollectionStatus = st.painterCollectionStatus) := by
  cases hm : st.currentMode <;>
    simp [switchMode, hm, resetAllPainterCollections]

/-- C5 witness: the amended theorem applied to the boot state (a Detection →
Collection switch), discharging the direction hypothesis. -/
theorem C5_mode_switch_witness :
    (switchMode initialState).1.isLooping = false ∧
    (∀ i, (switchMode initialState).1.colorCounters i = 0) ∧
    (∀ p c, (switchMode initialState).1.painterCollectionStatus p c = false) := by
  obtain ⟨-, -, -, h4, -, h6, -, h8, -⟩ := C5_mode_switch initialState
  exact ⟨h4, h6, h8 rfl⟩

/-! ## Claim C7 -/

/-- C7 counterexample: when the asset-existence check fails, `playTrack`
returns before touching `isLooping` — the claim's "the looping flag is cleared
in both failure paths" fails on the exists-failure path. -/
def envNoSD : TickEnv := { mkTick 0 true false false with sdExists := fun _ => false }

def stLooping : DeviceState := { initialState with isLooping := true }

/-- C7: the claim as stated is false: with `isLooping = true` and a missing
asset, `playTrack` suppresses the attempt but leaves the looping flag set. -/
theorem C7_counterexample :
    envNoSD.sdExists "/x.mp3" = false ∧
    stLooping.isLooping = true ∧
    (playTrack envNoSD "/x.mp3" stLooping).1.isLooping = true := by
  decide

/-- C7 (amended): a failed existence check suppresses the playback attempt and
leaves the whole state — including the looping flag — unchanged; a failed play
call stops the current song, saves the track name, and clears the looping
flag; in both failure paths the classification state (counters, grids, mode,
sensing flag) is untouched. -/
theorem C7_playTrack_failures (env : TickEnv) (fn : String) (st : DeviceState) :
    (env.sdExists fn = false → playTrack env fn st = (st, [])) ∧
    (env.sdExists fn = true → env.connectOK fn = false →
      playTrack env fn st =
        ({ st with currentPlayingFile := fn, isLooping := false },
          [Event.stopSong, Event.connect fn]) ∧
      (playTrack env fn st).1.colorCounters = st.colorCounters ∧
      (playTrack env fn st).1.painterCollectionStatus = st.painterCollectionStatus ∧
      (playTrack env fn st).1.isColorDetectionEnabled = st.isColorDetectionEnabled ∧
      (playTrack env fn st).1.currentMode = st.currentMode) := by
  constructor
  · intro h
    exact playTrack_missing env fn st h
  · intro h1 h2
    have hc := playTrack_connectFail env fn st h1 h2
    rw [hc]
    exact ⟨rfl, rfl, rfl, rfl, rfl⟩

/-- C7 witness: both failure paths exercised at concrete inputs. -/
theorem C7_playTrack_failures_witness :
    playTrack envNoSD "/y.mp3" stLooping = (stLooping, []) ∧
    (playTrack { mkTick 0 true false false with connectOK := fun _ => false }
        "/y.mp3" stLooping).1.isLooping = false := by
  constructor
  · exact (C7_playTrack_failures envNoSD "/y.mp3" stLooping).1 rfl
  · have := (C7_playTrack_failures
      { mkTick 0 true false false with connectOK := fun _ => false }
      "/y.mp3" stLooping).2 rfl rfl
    rw [this.1]
/-! ## Claim C8 -/

/-- C8 counterexample state: sensing active, looping set, song ended. -/
def stC8cex : DeviceState :=
  { initialState with
      isColorDetectionEnabled := true
      isLooping := true
      currentPlayingFile := "/R1.mp3" }

/-- C8: the claim as stated is false: on a sensing-active tick with the
looping flag set and the asset ended, no restart request is issued — the tick
emits nothing at all. -/
theorem C8_counterexample :
    stC8cex.isColorDetectionEnabled = true ∧
    stC8cex.isLooping = true ∧
    (mkTick 0 true false false).audioRunning = false ∧
    (loopTick (mkTick 0 true false false) stC8cex).2 = [] := by
  decide

/-- C8 (amended): playback continuation is serviced only on ticks where
sensing is inactive: on such a tick, if the looping flag is set, the asset has
ended and a track name is saved, a restart request for the saved name is
issued that tick (clearing the looping flag when the restart fails and keeping
it when it succeeds); on a sensing-active Detection tick with no classifier
match, no restart request is issued at all. -/
theorem C8_continuation (env : TickEnv) (st : DeviceState)
    (hbtn : env.button = true) (hlast : st.lastButtonState = true)
    (henc : encOf env = st.lastEncoded) (hasleep : st.asleep = false) :
    (st.isColorDetectionEnabled = false → st.isLooping = true →
      env.audioRunning = false → st.currentPlayingFile ≠ "" →
      (Event.connect st.currentPlayingFile ∈ (loopTick env st).2 ∧
       (env.connectOK st.currentPlayingFile = false →
         (loopTick env st).1.isLooping = false) ∧
       (env.connectOK st.currentPlayingFile = true →
         (loopTick env st).1.isLooping = true))) ∧
    (st.isColorDetectionEnabled = true →
      st.currentMode = OperationMode.colorRecognition → env.detect = none →
      (loopTick env st).2 = []) := by
  rw [loopTick_quiescent env st hbtn hlast henc hasleep]
  constructor
  · intro hs hl ha hf
    simp only [sensingStep, hs, hl, ha, hf, if_true, if_false]
    by_cases hc : env.connectOK st.currentPlayingFile = false
    · simp [hc, hf]
    · have hc2 : env.connectOK st.currentPlayingFile = true := by simpa using hc
      simp [hc2, hf, hl]
  · intro hs hm hd
    simp [sensingStep, hs, hm, hd]

/-- C8 witness: a quiescent idle tick with an ended looping asset re-issues
the play request for the saved name. -/
theorem C8_continuation_witness :
    Event.connect "/R1.mp3" ∈
      (loopTick (mkTick 0 true false false)
        { initialState with isLooping := true, currentPlayingFile := "/R1.mp3" }).2 ∧
    (loopTick (mkTick 0 true false false)
        { initialState with isLooping := true, currentPlayingFile := "/R1.mp3" }).1.isLooping = true := by
  have h := (C8_continuation (mkTick 0 true false false)
    { initialState with isLooping := true, currentPlayingFile := "/R1.mp3" }
    rfl rfl rfl rfl).1 rfl rfl rfl (by decide)
  exact ⟨h.1, h.2.2 rfl⟩
/-! ## Claim C4 -/

/-- In Detection mode with a recognized family, `playAudio` below the trip
threshold increments the family counter and requests the plain asset. -/
lemma playAudio_plain (env : TickEnv) (name : String) (st : DeviceState) (i : Nat)
    (hmode : st.currentMode = OperationMode.colorRecognition)
    (hidx : getColorFamilyIndex name = (i : Int))
    (hlt : st.colorCounters i < 4) :
    playAudio env name st =
      (let f := "/" ++ name ++ ".mp3"
       let stX := { st with
          colorCounters := Function.update st.colorCounters i (st.colorCounters i + 1)
          currentPlayingFile := f }
       let r := playTrack env f stX
       (r.1, Event.audioRequest f :: r.2)) := by
  unfold playAudio
  dsimp only
  rw [if_pos ⟨hmode, by rw [hidx]; exact Int.ofNat_nonneg i⟩]
  rw [hidx]
  simp only [Int.toNat_natCast]
  have hm : (st.colorCounters i + 1) % 256 = st.colorCounters i + 1 :=
    Nat.mod_eq_of_lt (by omega)
  rw [hm]
  have h5 : ¬(COLOR_COUNT_THRESHOLD ≤ st.colorCounters i + 1) := by
    rw [show COLOR_COUNT_THRESHOLD = 5 from rfl]
    omega
  rw [if_neg h5]

/-- In Detection mode with a recognized family, `playAudio` at the trip
threshold resets the counter and requests the special "X" asset. -/
lemma playAudio_special (env : TickEnv) (name : String) (st : DeviceState) (i : Nat)
    (hmode : st.currentMode = OperationMode.colorRecognition)
    (hidx : getColorFamilyIndex name = (i : Int))
    (heq : st.colorCounters i = 4) :
    playAudio env name st =
      (let f := "/" ++ getBaseColorName name ++ "X.mp3"
       let stX := { st with
          colorCounters :=
            Function.update (Function.update st.colorCounters i ((st.colorCounters i + 1) % 256)) i 0
          currentPlayingFile := f }
       let r := playTrack env f stX
       (r.1, Event.audioRequest f :: r.2)) := by
  unfold playAudio
  dsimp only
  rw [if_pos ⟨hmode, by rw [hidx]; exact Int.ofNat_nonneg i⟩]
  rw [hidx]
  simp only [Int.toNat_natCast]
  have h5 : COLOR_COUNT_THRESHOLD ≤ (st.colorCounters i + 1) % 256 := by
    rw [heq]
    decide
  rw [if_pos h5]

/-- C4: in Detection mode, for a fixed recognized color family, every
classifier match increments that family's repeat counter; while the
incremented counter stays below 5 the plain asset for the exact matched
identity is requested, and the match that brings the counter to 5 requests the
family's special asset (base family name + "X") and resets the counter to 0.
Other families' counters are untouched. -/
theorem C4_repeat_counters (env : TickEnv) (name : String) (st : DeviceState)
    (i : Nat) (hmode : st.currentMode = OperationMode.colorRecognition)
    (hidx : getColorFamilyIndex name = (i : Int)) :
    (st.colorCounters i < 4 →
      (playAudio env name st).1.colorCounters i = st.colorCounters i + 1 ∧
      Event.audioRequest ("/" ++ name ++ ".mp3") ∈ (playAudio env name st).2) ∧
    (st.colorCounters i = 4 →
      (playAudio env name st).1.colorCounters i = 0 ∧
      Event.audioRequest ("/" ++ getBaseColorName name ++ "X.mp3") ∈
        (playAudio env name st).2) ∧
    (∀ j, j ≠ i → (playAudio env name st).1.colorCounters j = st.colorCounters j) := by
  refine ⟨?_, ?_, ?_⟩
  · intro hlt
    rw [playAudio_plain env name st i hmode hidx hlt]
    constructor
    · show (playTrack env _ _).1.colorCounters i = _
      rw [playTrack_counters]
      exact Function.update_same i _ _
    · simp
  · intro heq
    rw [playAudio_special env name st i hmode hidx heq]
    constructor
    · show (playTrack env _ _).1.colorCounters i = _
      rw [playTrack_counters]
      exact Function.update_same i _ _
    · simp
  · intro j hj
    by_cases hlt : st.colorCounters i < 4
    · rw [playAudio_plain env name st i hmode hidx hlt]
      show (playTrack env _ _).1.colorCounters j = _
      rw [playTrack_counters]
      exact Function.update_noteq hj _ _
    · by_cases heq : st.colorCounters i = 4
      · rw [playAudio_special env name st i hmode hidx heq]
        show (playTrack env _ _).1.colorCounters j = _
        rw [playTrack_counters]
        exact (Function.update_noteq hj _ _).trans (Function.update_noteq hj _ _)
      · -- counters above 4 are unreachable but the branch still only updates i
        unfold playAudio
        dsimp only
        rw [if_pos ⟨hmode, by rw [hidx]; exact Int.ofNat_nonneg i⟩]
        rw [hidx]
        simp only [Int.toNat_natCast]
        split_ifs
        · show (playTrack env _ _).1.colorCounters j = _
          rw [playTrack_counters]
          exact (Function.update_noteq hj _ _).trans (Function.update_noteq hj _ _)
        · show (playTrack env _ _).1.colorCounters j = _
          rw [playTrack_counters]
          exact Function.update_noteq hj _ _

/-- C4 witness: the family "R" (index 0): the fourth-to-fifth match requests
the special asset "/RX.mp3" and clears the counter; an early match requests
the plain asset "/R3.mp3". -/
theorem C4_repeat_counters_witness :
    ((playAudio (mkTick 0 true false false) "R3"
        { initialState with colorCounters := fun j => if j = 0 then 4 else 0 }).1.colorCounters 0 = 0 ∧
      Event.audioRequest "/RX.mp3" ∈
        (playAudio (mkTick 0 true false false) "R3"
          { initialState with colorCounters := fun j => if j = 0 then 4 else 0 }).2) ∧
    ((playAudio (mkTick 0 true false false) "R3" initialState).1.colorCounters 0 = 1 ∧
      Event.audioRequest "/R3.mp3" ∈
        (playAudio (mkTick 0 true false false) "R3" initialState).2) := by
  constructor
  · have h := (C4_repeat_counters (mkTick 0 true false false) "R3"
      { initialState with colorCounters := fun j => if j = 0 then 4 else 0 } 0
      rfl (by decide)).2.1 (by decide)
    exact ⟨h.1, by simpa using h.2⟩
  · have h := (C4_repeat_counters (mkTick 0 true false false) "R3" initialState 0
      rfl (by decide)).1 (by decide)
    exact ⟨h.1, h.2⟩
/-! ## Claim C2 -/

/-- Over any run of the decoder, if no two adjacent nonzero decodes agree
(counting the remembered `lastDir` as the first), no rotation intent is ever
emitted. -/
lemma runEnc_alternating (inputs : List TickEnv) (st : DeviceState)
    (hch : List.Chain' (fun a b => a ≠ b)
      (st.lastDir ::
        (decodes st.lastEncoded (inputs.map encOf)).filter (fun d => d != 0))) :
    (runEnc inputs st).2 = [] := by
  induction inputs generalizing st with
  | nil => rfl
  | cons e rest ih =>
    simp only [List.map_cons, decodes] at hch
    by_cases hd : decodeDir st.lastEncoded (encOf e) = 0
    · rw [List.filter_cons_of_neg (by simp [hd])] at hch
      have he := handleEncoder_zero e st hd
      show ((handleEncoder e st).2 ++ (runEnc rest (handleEncoder e st).1).2) = []
      rw [he]
      simp only [List.nil_append]
      exact ih ({ st with lastEncoded := encOf e }) hch
    · rw [List.filter_cons_of_pos (by simp [hd])] at hch
      obtain ⟨hne, htail⟩ := List.chain'_cons.1 hch
      have he := handleEncoder_change e st hd (Ne.symm hne)
      show ((handleEncoder e st).2 ++ (runEnc rest (handleEncoder e st).1).2) = []
      rw [he]
      simp only [List.nil_append]
      exact ih _ htail

/-- C2: rotation intents require two consecutive agreeing nonzero decodes:
(a) over any phase-sample run whose nonzero decodes never repeat (so in
particular after any single decoded transition from the initial `lastDir = 0`
state), no intent is emitted; (b) a tick that emits an intent has a nonzero
decode equal to the remembered direction of the previous nonzero decode;
(c) a direction change emits nothing and re-arms the confirmation counter at
2, and one more consistent reading (here in track-navigation conditions)
produces the intent. -/
theorem C2_rotation_confirmation :
    (∀ (inputs : List TickEnv) (st : DeviceState),
      List.Chain' (fun a b => a ≠ b)
        (st.lastDir ::
          (decodes st.lastEncoded (inputs.map encOf)).filter (fun d => d != 0)) →
      (runEnc inputs st).2 = []) ∧
    (∀ (env : TickEnv) (st : DeviceState), (handleEncoder env st).2 ≠ [] →
      decodeDir st.lastEncoded (encOf env) ≠ 0 ∧
      decodeDir st.lastEncoded (encOf env) = st.lastDir) ∧
    (∀ (env1 env2 : TickEnv) (st : DeviceState),
      decodeDir st.lastEncoded (encOf env1) ≠ 0 →
      decodeDir st.lastEncoded (encOf env1) ≠ st.lastDir →
      (handleEncoder env1 st).2 = [] ∧
      (handleEncoder env1 st).1.validRotations = 2 ∧
      (handleEncoder env1 st).1.lastDir = decodeDir st.lastEncoded (encOf env1) ∧
      (decodeDir (encOf env1) (encOf env2) = decodeDir st.lastEncoded (encOf env1) →
        st.isEncoderPressed = false → st.isColorDetectionEnabled = false →
        TRACK_NAVIGATION_DEBOUNCE < env2.now - st.lastTrackNavigationTime →
        (handleEncoder env2 (handleEncoder env1 st).1).2 ≠ [])) := by
  refine ⟨runEnc_alternating, handleEncoder_emit_need, ?_⟩
  intro env1 env2 st hne hneq
  have he := handleEncoder_change env1 st hne hneq
  rw [he]
  refine ⟨rfl, rfl, rfl, ?_⟩
  intro heq2 hpress hsense hdeb
  set st1 : DeviceState :=
    { st with
        lastEncoded := encOf env1
        lastDir := decodeDir st.lastEncoded (encOf env1)
        validRotations := 2 } with hst1
  have ha := handleEncoder_accept_track env2 st1
    (by show decodeDir (encOf env1) (encOf env2) = decodeDir st.lastEncoded (encOf env1); exact heq2)
    (by show decodeDir st.lastEncoded (encOf env1) ≠ 0; exact hne)
    (by show (0:Int) ≤ 2; omega)
    (by show st.isEncoderPressed = false; exact hpress)
    (by show st.isColorDetectionEnabled = false; exact hsense)
    (by show TRACK_NAVIGATION_DEBOUNCE < env2.now - st.lastTrackNavigationTime; exact hdeb)
  rw [ha]
  split_ifs <;> simp

/-- C2 witness: all three parts at concrete inputs: a single transition (and an
alternating pair) emits nothing; an emitting tick has a confirming decode; a
direction change re-arms and the next consistent sample emits. -/
theorem C2_rotation_confirmation_witness :
    (runEnc [mkTick 0 true false true] initialState).2 = [] ∧
    ((handleEncoder (mkTick 200 true false true)
        { initialState with lastDir := -1, lastEncoded := 0 }).2 ≠ [] →
      decodeDir 0 1 ≠ 0 ∧ decodeDir 0 1 = -1) ∧
    ((handleEncoder (mkTick 0 true false true) initialState).2 = [] ∧
      (handleEncoder (mkTick 0 true false true) initialState).1.validRotations = 2 ∧
      (handleEncoder (mkTick 200 true true true)
        (handleEncoder (mkTick 0 true false true) initialState).1).2 ≠ []) := by
  refine ⟨?_, ?_, ?_, ?_, ?_⟩
  · refine C2_rotation_confirmation.1 [mkTick 0 true false true] initialState ?_
    simp [initialState, mkTick, encOf, decodes, decodeDir]
  · intro h
    exact C2_rotation_confirmation.2.1 (mkTick 200 true false true)
      { initialState with lastDir := -1, lastEncoded := 0 } h
  · exact (C2_rotation_confirmation.2.2 (mkTick 0 true false true)
      (mkTick 200 true true true) initialState (by decide) (by decide)).1
  · exact (C2_rotation_confirmation.2.2 (mkTick 0 true false true)
      (mkTick 200 true true true) initialState (by decide) (by decide)).2.1
  · exact (C2_rotation_confirmation.2.2 (mkTick 0 true false true)
      (mkTick 200 true true true) initialState (by decide) (by decide)).2.2.2
      (by decide) rfl rfl (by decide)

/-! ## Completion-scan fold lemmas for C3 and C9 -/

lemma painterList_lt : ∀ q ∈ [0, 1, 2, 3, 4, 5], q < 6 := by
  intro q hq
  fin_cases hq <;> omega

/-- A painter completion asset never names a color family, so `playAudio`
always takes the direct-playback path on it. -/
lemma playAudio_painter (env : TickEnv) (st : DeviceState) (p : Nat) (hp : p < 6) :
    playAudio env (painterName p) st =
      (let f := "/" ++ painterName p ++ ".mp3"
       let r := playTrack env f { st with currentPlayingFile := f }
       (r.1, Event.audioRequest f :: r.2)) := by
  have hidx : getColorFamilyIndex (painterName p) = -1 := by
    interval_cases p <;> decide
  unfold playAudio
  dsimp only
  rw [if_neg]
  rintro ⟨-, hh⟩
  rw [hidx] at hh
  omega

lemma completionStep_sense_keep (env : TickEnv) (st : DeviceState) (p : Nat)
    (h : st.isColorDetectionEnabled = false) :
    (completionStep env st p).1.isColorDetectionEnabled = false := by
  unfold completionStep
  split_ifs <;> simpa

lemma cpcAux_sense_keep (env : TickEnv) (L : List Nat) (st : DeviceState)
    (evs : List Event) (h : st.isColorDetectionEnabled = false) :
    (cpcAux env L (st, evs)).1.isColorDetectionEnabled = false := by
  induction L generalizing st evs with
  | nil => exact h
  | cons p rest ih =>
    simp only [cpcAux]
    exact ih _ _ (completionStep_sense_keep env st p h)

lemma cpcAux_cell_keep (env : TickEnv) (L : List Nat) (st : DeviceState)
    (evs : List Event) (a b : Nat)
    (h : st.painterCollectionStatus a b = false) :
    (cpcAux env L (st, evs)).1.painterCollectionStatus a b = false := by
  induction L generalizing st evs with
  | nil => exact h
  | cons p rest ih =>
    simp only [cpcAux]
    refine ih _ _ ?_
    cases hv : (completionStep env st p).1.painterCollectionStatus a b with
    | false => rfl
    | true =>
      have := completionStep_grid_mono env st p a b hv
      rw [h] at this
      exact this.symm

lemma cpcAux_noop (env : TickEnv) (L : List Nat) (st : DeviceState)
    (evs : List Event)
    (h : ∀ q ∈ L, rowComplete st.painterCollectionStatus q = false) :
    cpcAux env L (st, evs) = (st, evs) := by
  induction L generalizing evs with
  | nil => rfl
  | cons p rest ih =>
    simp only [cpcAux]
    rw [completionStep_noop env st p (h p (by simp))]
    simp only [List.append_nil]
    exact ih evs (fun q hq => h q (by simp [hq]))

/-- Scanning the painter table with a unique freshly-completed row `p`:
the completion asset for `p` is requested, sensing is disabled, and row `p`
ends all-false. -/
lemma cpcAux_unique (env : TickEnv) (L : List Nat) (st : DeviceState)
    (evs : List Event) (p : Nat) (hp6 : p < 6) (hp : p ∈ L)
    (hcomp : rowComplete st.painterCollectionStatus p = true)
    (huniq : ∀ q ∈ L, q ≠ p → rowComplete st.painterCollectionStatus q = false) :
    Event.audioRequest ("/" ++ painterName p ++ ".mp3") ∈ (cpcAux env L (st, evs)).2 ∧
    (cpcAux env L (st, evs)).1.isColorDetectionEnabled = false ∧
    (∀ c, (cpcAux env L (st, evs)).1.painterCollectionStatus p c = false) := by
  induction L generalizing st evs with
  | nil => cases hp
  | cons h rest ih =>
    by_cases hhp : h = p
    · subst hhp
      simp only [cpcAux]
      have hstep : completionStep env st h =
          ({ (playAudio env (painterName h) st).1 with
              isColorDetectionEnabled := false
              painterCollectionStatus :=
                resetRow (playAudio env (painterName h) st).1.painterCollectionStatus h },
            Event.blinkE 2 :: (playAudio env (painterName h) st).2) := by
        unfold completionStep
        rw [if_pos hcomp]
      rw [hstep]
      refine ⟨?_, ?_, ?_⟩
      · rw [cpcAux_acc]
        rw [playAudio_painter env st h hp6]
        simp
      · exact cpcAux_sense_keep env rest _ _ rfl
      · intro c
        refine cpcAux_cell_keep env rest _ _ h c ?_
        show resetRow _ h h c = false
        simp [resetRow]
    · have hnoop : completionStep env st h = (st, []) :=
        completionStep_noop env st h (huniq h (by simp) hhp)
      simp only [cpcAux, hnoop, List.append_nil]
      exact ih st evs (by rcases List.mem_cons.1 hp with hh | hh; exact absurd hh.symm hhp; exact hh)
        hcomp (fun q hq hne => huniq q (by simp [hq]) hne)
lemma rowComplete_resetRow_resetAll (p q : Nat) :
    rowComplete (resetRow resetAllPainterCollections p) q = false := by
  simp [rowComplete, resetRow, resetAllPainterCollections]

/-- A freshly-completed row under an always-succeeding playback collaborator:
one blink, the request, the stop and the reconnect; every grid entry is
wholesale reset by `playTrack`, sensing goes off. -/
lemma completionStep_hit_success (env : TickEnv) (st : DeviceState) (p : Nat)
    (hp6 : p < 6)
    (hcomp : rowComplete st.painterCollectionStatus p = true)
    (hmode : st.currentMode = OperationMode.painterCollection)
    (hsd : ∀ f, env.sdExists f = true) (hco : ∀ f, env.connectOK f = true) :
    completionStep env st p =
      ({ st with
          currentPlayingFile := "/" ++ painterName p ++ ".mp3"
          isLooping := true
          isColorDetectionEnabled := false
          painterCollectionStatus := resetRow resetAllPainterCollections p },
        [Event.blinkE 2, Event.audioRequest ("/" ++ painterName p ++ ".mp3"),
         Event.stopSong, Event.connect ("/" ++ painterName p ++ ".mp3")]) := by
  unfold completionStep
  rw [if_pos hcomp]
  rw [playAudio_painter env st p hp6]
  dsimp only
  rw [playTrack_success env _ _ (hsd _) (hco _) (by exact hmode)]

/-- The first complete row under a succeeding collaborator gets the single
request of the whole scan: the wholesale grid reset silences every later row. -/
lemma cpcAux_success (env : TickEnv) (L : List Nat) (st : DeviceState)
    (evs : List Event)
    (hmode : st.currentMode = OperationMode.painterCollection)
    (hsd : ∀ f, env.sdExists f = true) (hco : ∀ f, env.connectOK f = true)
    (hL6 : ∀ q ∈ L, q < 6)
    (hex : ∃ q ∈ L, rowComplete st.painterCollectionStatus q = true) :
    List.countP isReq (cpcAux env L (st, evs)).2 = List.countP isReq evs + 1 ∧
    (∀ a b, (cpcAux env L (st, evs)).1.painterCollectionStatus a b = false) ∧
    (cpcAux env L (st, evs)).1.isColorDetectionEnabled = false := by
  induction L generalizing st evs with
  | nil => simp at hex
  | cons h rest ih =>
    by_cases hc : rowComplete st.painterCollectionStatus h = true
    · simp only [cpcAux]
      rw [completionStep_hit_success env st h (hL6 h (by simp)) hc hmode hsd hco]
      rw [cpcAux_noop env rest _ _ (fun q hq => rowComplete_resetRow_resetAll h q)]
      refine ⟨?_, ?_, rfl⟩
      · simp [List.countP_append, List.countP_cons, isReq]
      · intro a b
        simp [resetRow, resetAllPainterCollections]
    · have hc2 : rowComplete st.painterCollectionStatus h = false := by
        simpa using hc
      simp only [cpcAux, completionStep_noop env st h hc2, List.append_nil]
      refine ih st evs hmode (fun q hq => hL6 q (by simp [hq])) ?_
      obtain ⟨q, hq, hqc⟩ := hex
      rcases List.mem_cons.1 hq with hh | hh
      · rw [hh] at hqc
        rw [hqc] at hc2
        exact absurd hc2 (by simp)
      · exact ⟨q, hh, hqc⟩

/-! ## Claim C9 -/

/-- C9 counterexample state: rows 0 (Dali) and 1 (Gogh) both fully true when
the completion scan runs. -/
def stC9cex : DeviceState :=
  { initialState with
      currentMode := OperationMode.painterCollection
      painterCollectionStatus := fun p c => decide ((p = 0 ∨ p = 1) ∧ c < 5) }

/-- C9: the claim as stated is false: with rows 0 and 1 both complete and a
succeeding playback collaborator, theme 0's asset is requested but theme 1's
never is (the successful play wholesale-resets every grid before the scan
reaches it). -/
theorem C9_counterexample :
    rowComplete stC9cex.painterCollectionStatus 0 = true ∧
    rowComplete stC9cex.painterCollectionStatus 1 = true ∧
    Event.audioRequest "/P_Dali.mp3" ∈
      (checkPainterCompletion (mkTick 0 true false false) stC9cex).2 ∧
    Event.audioRequest "/P_Gogh.mp3" ∉
      (checkPainterCompletion (mkTick 0 true false false) stC9cex).2 := by
  decide

/-- C9 (amended): when two or more theme rows are fully true as the same
tick's completion scan runs and the playback collaborator succeeds, only the
first complete theme in table order gets its completion asset requested
(exactly one request in the whole scan); its successful play wholesale-resets
every theme's grid, so the later complete themes are skipped that tick, and
sensing is disabled.  (Each theme is handled independently in table order only
in the sense of the scan order; the claimed per-theme request and per-row-only
reset do not hold.) -/
theorem C9_simultaneous_completion (env : TickEnv) (st : DeviceState)
    (p q : Nat) (hpq : p < q) (hq6 : q < 6)
    (hcp : rowComplete st.painterCollectionStatus p = true)
    (hcq : rowComplete st.painterCollectionStatus q = true)
    (hmode : st.currentMode = OperationMode.painterCollection)
    (hsd : ∀ f, env.sdExists f = true) (hco : ∀ f, env.connectOK f = true) :
    List.countP isReq (checkPainterCompletion env st).2 = 1 ∧
    (∀ a b, (checkPainterCompletion env st).1.painterCollectionStatus a b = false) ∧
    (checkPainterCompletion env st).1.isColorDetectionEnabled = false := by
  have h := cpcAux_success env [0, 1, 2, 3, 4, 5] st [] hmode hsd hco painterList_lt
    ⟨p, mem_painterList (by omega), hcp⟩
  simpa using h

/-- C9 witness: the amended theorem at the concrete two-complete-rows state. -/
theorem C9_simultaneous_completion_witness :
    List.countP isReq (checkPainterCompletion (mkTick 0 true false false) stC9cex).2 = 1 ∧
    (checkPainterCompletion (mkTick 0 true false false) stC9cex).1.painterCollectionStatus 1 0 = false := by
  have h := C9_simultaneous_completion (mkTick 0 true false false) stC9cex 0 1
    (by omega) (by omega) (by decide) (by decide) rfl (fun f => rfl) (fun f => rfl)
  exact ⟨h.1, h.2.1 1 0⟩
/-! ## Claim C3 -/

lemma sensingStep_collection (env : TickEnv) (st : DeviceState)
    (hs : st.isColorDetectionEnabled = true)
    (hm : st.currentMode = OperationMode.painterCollection) :
    sensingStep env st =
      checkPainterCompletion env
        { st with painterCollectionStatus :=
            applyMarks env.marks st.painterCollectionStatus } := by
  simp only [sensingStep, hs, if_true]
  rw [if_neg (by rw [hm]; exact fun hh => absurd hh (by decide))]

lemma rowComplete_false_mono (g1 g2 : Nat → Nat → Bool) (q : Nat)
    (hmono : ∀ c, g1 q c = true → g2 q c = true)
    (h : rowComplete g2 q = false) : rowComplete g1 q = false := by
  cases hv : rowComplete g1 q with
  | false => rfl
  | true =>
    have := rowComplete_true_of g1 g2 q hmono hv
    rw [h] at this
    exact this.symm

lemma hbPressEdge_grid (env : TickEnv) (st : DeviceState) :
    (hbPressEdge env st).painterCollectionStatus = st.painterCollectionStatus := by
  unfold hbPressEdge
  split_ifs <;> rfl

lemma hbModeCheck_grid_mono (env : TickEnv) (st : DeviceState) :
    ∀ q c, (hbModeCheck env st).1.painterCollectionStatus q c = true →
      st.painterCollectionStatus q c = true := by
  unfold hbModeCheck
  dsimp only
  split_ifs <;> intro q c h
  · exact switchMode_grid_mono st q c h
  · exact h
  · exact h

lemma hbShortPress_grid_mono (env : TickEnv) (st : DeviceState) :
    ∀ q c, (hbShortPress env st).1.painterCollectionStatus q c = true →
      st.painterCollectionStatus q c = true := by
  unfold hbShortPress
  dsimp only
  split_ifs <;> intro q c h <;>
    first
    | · have h2 := checkColorAndPlayAudio_grid_mono env _ q c h
        simp only [resetAllPainterCollections] at h2
        first
        | exact h2
        | exact absurd h2 (by simp)
    | exact h
    | · simp only [resetAllPainterCollections] at h
        exact absurd h (by simp)

lemma hbRelease_grid_mono (env : TickEnv) (st : DeviceState) :
    ∀ q c, (hbRelease env st).1.painterCollectionStatus q c = true →
      st.painterCollectionStatus q c = true := by
  unfold hbRelease
  dsimp only
  split_ifs <;> intro q c h
  · exact hbShortPress_grid_mono env ({ st with isEncoderPressed := false }) q c h
  · exact h
  · exact h

lemma handleButton_grid_mono (env : TickEnv) (st : DeviceState) :
    ∀ q c, (handleButton env st).1.painterCollectionStatus q c = true →
      st.painterCollectionStatus q c = true := by
  intro q c
  simp only [handleButton]
  split_ifs
  · intro h
    have h2 : (hbPressEdge env st).painterCollectionStatus q c = true := h
    rwa [hbPressEdge_grid env st] at h2
  · intro h
    have h3 : (hbRelease env (hbModeCheck env (hbPressEdge env st)).1).1.painterCollectionStatus q c = true := h
    have h4 := hbRelease_grid_mono env _ q c h3
    have h5 := hbModeCheck_grid_mono env _ q c h4
    rwa [hbPressEdge_grid env st] at h5

/-- The no-fully-true-row property is preserved by every full tick. -/
lemma loopTick_rows (env : TickEnv) (st : DeviceState)
    (h : ∀ q < 6, rowComplete st.painterCollectionStatus q = false) :
    ∀ q < 6, rowComplete (loopTick env st).1.painterCollectionStatus q = false := by
  have hbmono := handleButton_grid_mono env st
  by_cases hbs : (handleButton env st).1.asleep = true
  · simp only [loopTick]
    rw [if_pos hbs]
    intro q hq
    exact rowComplete_false_mono _ _ q (fun c => hbmono q c) (h q hq)
  · simp only [loopTick]
    rw [if_neg hbs]
    intro q hq
    dsimp only
    have hbrows : ∀ r < 6,
        rowComplete (handleButton env st).1.painterCollectionStatus r = false :=
      fun r hr => rowComplete_false_mono _ _ r (fun c => hbmono r c) (h r hr)
    have hegrid : (handleEncoder env (handleButton env st).1).1.painterCollectionStatus =
        (handleButton env st).1.painterCollectionStatus :=
      (handleEncoder_btnEq env (handleButton env st).1).2.2.2.2.2.2.2.2.2.2.2.2
    have herows : ∀ r < 6,
        rowComplete (handleEncoder env (handleButton env st).1).1.painterCollectionStatus r = false := by
      intro r hr
      rw [hegrid]
      exact hbrows r hr
    exact sensingStep_rows env _ herows q hq

/-- C3 counterexample state and tick: themes 2 (Munch) and 3 (Picasso) each
miss only their last sub-element, and the tick's classifier matches complete
both rows. -/
def stC3cex : DeviceState :=
  { initialState with
      currentMode := OperationMode.painterCollection
      isColorDetectionEnabled := true
      painterCollectionStatus := fun p c => decide ((p = 2 ∨ p = 3) ∧ c < 4) }

def envC3cex : TickEnv := { mkTick 0 true false false with marks := [(2, 4), (3, 4)] }

/-- C3: the claim as stated is false: the tick's matches make theme 3's row
fully true, yet that same tick never requests theme 3's completion asset
(theme 2's successful completion play wholesale-resets all grids first). -/
theorem C3_counterexample :
    rowComplete stC3cex.painterCollectionStatus 3 = false ∧
    rowComplete (applyMarks envC3cex.marks stC3cex.painterCollectionStatus) 3 = true ∧
    Event.audioRequest "/P_Picasso.mp3" ∉ (loopTick envC3cex stC3cex).2 := by
  decide

/-- C3 (amended): in Collection mode, when a tick's classifier matches leave
exactly one theme `p` fully true, that same tick requests `p`'s completion
asset, disables sensing, and resets `p`'s row to all-false; and a tick never
ends with a fully-true row (the no-complete-row property is preserved by every
tick).  When several themes complete in the same tick only the first in table
order is requested (see the C9 analysis). -/
theorem C3_completion_tick :
    (∀ (env : TickEnv) (st : DeviceState) (p : Nat),
      env.button = true → st.lastButtonState = true → encOf env = st.lastEncoded →
      st.asleep = false → st.isColorDetectionEnabled = true →
      st.currentMode = OperationMode.painterCollection → p < 6 →
      rowComplete (applyMarks env.marks st.painterCollectionStatus) p = true →
      (∀ q < 6, q ≠ p →
        rowComplete (applyMarks env.marks st.painterCollectionStatus) q = false) →
      (Event.audioRequest ("/" ++ painterName p ++ ".mp3") ∈ (loopTick env st).2 ∧
       (loopTick env st).1.isColorDetectionEnabled = false ∧
       (∀ c, (loopTick env st).1.painterCollectionStatus p c = false) ∧
       (∀ q < 6, rowComplete (loopTick env st).1.painterCollectionStatus q = false))) ∧
    (∀ (env : TickEnv) (st : DeviceState),
      (∀ q < 6, rowComplete st.painterCollectionStatus q = false) →
      ∀ q < 6, rowComplete (loopTick env st).1.painterCollectionStatus q = false) := by
  constructor
  · intro env st p hbtn hlast henc hasleep hs hm hp6 hco huniq
    rw [loopTick_quiescent env st hbtn hlast henc hasleep,
      sensingStep_collection env st hs hm]
    have h := cpcAux_unique env [0, 1, 2, 3, 4, 5]
      { st with painterCollectionStatus :=
          applyMarks env.marks st.painterCollectionStatus } [] p hp6
      (mem_painterList hp6) hco
      (fun q hq hne => huniq q (painterList_lt q hq) hne)
    refine ⟨h.1, h.2.1, h.2.2, ?_⟩
    intro q hq
    exact checkPainterCompletion_rows env _ q hq
  · exact loopTick_rows

/-- C3 witness: theme 2 misses only sub-element 4; the tick's match completes
it, the "P_Munch" asset is requested, sensing turns off and the row is
cleared. -/
def stC3w : DeviceState :=
  { initialState with
      currentMode := OperationMode.painterCollection
      isColorDetectionEnabled := true
      painterCollectionStatus := fun p c => decide (p = 2 ∧ c < 4) }

def envC3w : TickEnv := { mkTick 0 true false false with marks := [(2, 4)] }

theorem C3_completion_tick_witness :
    Event.audioRequest "/P_Munch.mp3" ∈ (loopTick envC3w stC3w).2 ∧
    (loopTick envC3w stC3w).1.isColorDetectionEnabled = false ∧
    (∀ c, (loopTick envC3w stC3w).1.painterCollectionStatus 2 c = false) := by
  have h := C3_completion_tick.1 envC3w stC3w 2 rfl rfl rfl rfl rfl rfl (by omega)
    (by decide)
    (by
      intro q hq hne
      interval_cases q <;> first | decide | exact absurd rfl hne)
  exact ⟨h.1, h.2.1, h.2.2.1⟩

/-! ## Claim C1 -/

/-- C1: the claim as stated is false: a hold that reaches the sleep threshold
passes the mode-switch threshold on the way, so `switchMode` fires at 3000 ms
before the sleep sequence fires at 5000 ms. -/
theorem C1_counterexample :
    Event.sleepRequested ∈
      (runDevice [mkTick 0 false false false, mkTick 3000 false false false,
        mkTick 5000 false false false] initialState).2 ∧
    Event.modeSwitched ∈
      (runDevice [mkTick 0 false false false, mkTick 3000 false false false,
        mkTick 5000 false false false] initialState).2 := by
  decide

/-- C1 (amended): for every button hold some of whose ticks reach the sleep
threshold, `RequestSleep` fires exactly once and is terminal (the run stops),
`RequestToggleDetection` never fires during the hold, and `RequestModeSwitch`
fires at most once (at the mode-switch threshold, before sleep). -/
theorem C1_sleep_hold (e0 : TickEnv) (rest : List TickEnv) (st0 : DeviceState)
    (hlast : st0.lastButtonState = true) (hasleep : st0.asleep = false)
    (hbtn0 : e0.button = false) (hlow : ∀ e ∈ rest, e.button = false)
    (hqual : ∃ e ∈ rest, SLEEP_PRESS_DURATION ≤ e.now - e0.now) :
    (runDevice (e0 :: rest) st0).2.count Event.sleepRequested = 1 ∧
    (runDevice (e0 :: rest) st0).2.count Event.toggleDetection = 0 ∧
    (runDevice (e0 :: rest) st0).2.count Event.modeSwitched ≤ 1 := by
  rw [runDevice_cons_awake e0 rest st0 hasleep]
  obtain ⟨hHe, hlp, hm0, ht0, hs0⟩ := loopTick_press e0 st0 hlast hbtn0 hasleep
  obtain ⟨r1, r2, r3, r4⟩ := run_hold_counts rest (loopTick e0 st0).1 e0.now hHe hlow
  refine ⟨?_, ?_, ?_⟩
  · simp [List.count_append, count_eq_zero_of_not_mem hs0, r3 hqual]
  · simp [List.count_append, count_eq_zero_of_not_mem ht0, r1]
  · have hlpw : lpW (loopTick e0 st0).1 = 1 := by simp [lpW, hlp]
    rw [hlpw] at r4
    simp only [List.count_append, count_eq_zero_of_not_mem hm0]
    omega

/-- C1 witness: the amended theorem on the concrete 0/3000/5000 ms hold. -/
theorem C1_sleep_hold_witness :
    (runDevice [mkTick 0 false false false, mkTick 3000 false false false,
      mkTick 5000 false false false] initialState).2.count Event.sleepRequested = 1 ∧
    (runDevice [mkTick 0 false false false, mkTick 3000 false false false,
      mkTick 5000 false false false] initialState).2.count Event.toggleDetection = 0 ∧
    (runDevice [mkTick 0 false false false, mkTick 3000 false false false,
      mkTick 5000 false false false] initialState).2.count Event.modeSwitched ≤ 1 := by
  exact C1_sleep_hold (mkTick 0 false false false)
    [mkTick 3000 false false false, mkTick 5000 false false false] initialState
    rfl rfl rfl
    (by intro e he; fin_cases he <;> rfl)
    ⟨mkTick 5000 false false false, by simp, by decide⟩
/-! ## Claim C6 -/

/-- C6: the claim as stated is false: in this hold a volume-adjusting rotation
occurs (setVol fires while pressed, at 3020 ms), yet `RequestModeSwitch` had
already fired at the 3000 ms tick — the adjustment does not retract it. -/
theorem C6_counterexample :
    Event.setVol 20 ∈
      (runDevice [mkTick 0 false false false, mkTick 3000 false false false,
        mkTick 3010 false false true, mkTick 3020 false true true,
        mkTick 4000 true true true] initialState).2 ∧
    Event.modeSwitched ∈
      (runDevice [mkTick 0 false false false, mkTick 3000 false false false,
        mkTick 3010 false false true, mkTick 3020 false true true,
        mkTick 4000 true true true] initialState).2 := by
  decide

/-- C6 (amended): if a volume-adjusting rotation occurs during a hold before
the hold reaches the mode-switch threshold, then neither `RequestModeSwitch`
nor `RequestToggleDetection` fires for that hold, whatever its total duration
(below the sleep threshold); an adjustment arriving only after the threshold
does not retract an already-fired switch, though it still suppresses the
release toggle. -/
theorem C6_volume_suppression (e0 : TickEnv) (pre post : List TickEnv)
    (er : TickEnv) (st0 : DeviceState)
    (hlast : st0.lastButtonState = true) (hasleep : st0.asleep = false)
    (hbtn0 : e0.button = false)
    (hlowpre : ∀ e ∈ pre, e.button = false)
    (hlowpost : ∀ e ∈ post, e.button = false)
    (hbtnr : er.button = true)
    (htpre : ∀ e ∈ pre, e.now - e0.now < MODE_SWITCH_PRESS_DURATION)
    (htpost : ∀ e ∈ post, e.now - e0.now < SLEEP_PRESS_DURATION)
    (hvol : (runDevice (e0 :: pre) st0).1.volumeAdjustedWhilePressed = true) :
    Event.modeSwitched ∉ (runDevice ((e0 :: pre) ++ post ++ [er]) st0).2 ∧
    Event.toggleDetection ∉ (runDevice ((e0 :: pre) ++ post ++ [er]) st0).2 := by
  -- phase A: press tick plus the sub-threshold prefix
  have hA : runDevice (e0 :: pre) st0 =
      ((runDevice pre (loopTick e0 st0).1).1,
        (loopTick e0 st0).2 ++ (runDevice pre (loopTick e0 st0).1).2) :=
    runDevice_cons_awake e0 pre st0 hasleep
  obtain ⟨hHe, hlp, hm0, ht0, hs0⟩ := loopTick_press e0 st0 hlast hbtn0 hasleep
  obtain ⟨hApre1, hApre2, hApre3, hApre4⟩ :=
    run_hold_sub3000 pre (loopTick e0 st0).1 e0.now hHe hlowpre htpre
  have hvolA : (runDevice pre (loopTick e0 st0).1).1.volumeAdjustedWhilePressed = true := by
    rw [hA] at hvol
    exact hvol
  -- phase B: the remaining held ticks with the flag set
  obtain ⟨hB1, hB2, hB3, hB4, hB5⟩ :=
    run_hold_volAdj post (runDevice pre (loopTick e0 st0).1).1 e0.now hApre1 hvolA
      hlowpost htpost
  -- phase C: the release tick with the flag still set
  obtain ⟨hC1, hC2, hC3⟩ := loopTick_releaseSuppressed er
    (runDevice post (runDevice pre (loopTick e0 st0).1).1).1 e0.now hB1 hbtnr hB2
  rw [List.append_assoc]
  rw [runDevice_append (e0 :: pre) (post ++ [er]) st0, hA]
  rw [runDevice_append post [er] (runDevice pre (loopTick e0 st0).1).1]
  have hrel : runDevice [er] (runDevice post (runDevice pre (loopTick e0 st0).1).1).1 =
      ((loopTick er (runDevice post (runDevice pre (loopTick e0 st0).1).1).1).1,
        (loopTick er (runDevice post (runDevice pre (loopTick e0 st0).1).1).1).2 ++ []) :=
    runDevice_cons_awake er [] _ hB1.1
  rw [hrel]
  constructor
  all_goals
    intro hh
    simp only [List.mem_append, List.append_nil] at hh
    tauto

/-- C6 witness: press at 0, confirmed rotation adjusting the volume at
20/40 ms, held past the threshold until release at 4000 ms: neither intent
fires. -/
theorem C6_volume_suppression_witness :
    Event.modeSwitched ∉
      (runDevice ((mkTick 0 false false false ::
        [mkTick 20 false false true, mkTick 40 false true true]) ++
        [mkTick 3500 false true true] ++ [mkTick 4000 true true true])
        initialState).2 ∧
    Event.toggleDetection ∉
      (runDevice ((mkTick 0 false false false ::
        [mkTick 20 false false true, mkTick 40 false true true]) ++
        [mkTick 3500 false true true] ++ [mkTick 4000 true true true])
        initialState).2 := by
  exact C6_volume_suppression (mkTick 0 false false false)
    [mkTick 20 false false true, mkTick 40 false true true]
    [mkTick 3500 false true true] (mkTick 4000 true true true) initialState
    rfl rfl rfl
    (by intro e he; fin_cases he <;> rfl)
    (by intro e he; fin_cases he <;> rfl)
    rfl
    (by intro e he; fin_cases he <;> decide)
    (by intro e he; fin_cases he <;> decide)
    (by decide)
/-! ## Claim C10 -/

lemma decodes_append_prefix (init : Nat) (xs ys : List Nat) :
    ∀ d ∈ decodes init xs, d ∈ decodes init (xs ++ ys) := by
  induction xs generalizing init with
  | nil => intro d hd; simp [decodes] at hd
  | cons x rest ih =>
    intro d hd
    simp only [decodes, List.mem_cons] at hd ⊢
    rcases hd with hd | hd
    · exact Or.inl hd
    · exact Or.inr (ih x d hd)

/-- The press tick with a boundary rotation: the hold starts with volume and
flag untouched and no intent emitted. -/
lemma loopTick_pressBoundary (env : TickEnv) (st : DeviceState)
    (hlast : st.lastButtonState = true) (hbtn : env.button = false)
    (hasleep : st.asleep = false)
    (hd : decodeDir st.lastEncoded (encOf env) = 0 ∨
      (decodeDir st.lastEncoded (encOf env) = 1 ∧ st.currentVolume ≤ MIN_VOLUME) ∨
      (decodeDir st.lastEncoded (encOf env) = -1 ∧ MAX_VOLUME ≤ st.currentVolume)) :
    Held env.now (loopTick env st).1 ∧
    (loopTick env st).1.currentVolume = st.currentVolume ∧
    (loopTick env st).1.volumeAdjustedWhilePressed = false ∧
    (loopTick env st).1.lastEncoded = encOf env ∧
    (∀ w, Event.setVol w ∉ (loopTick env st).2) ∧
    Event.toggleDetection ∉ (loopTick env st).2 := by
  have hb := handleButton_press env st hlast hbtn
  obtain ⟨hc1, hc2⟩ := loopTick_compose env st _ [] hb (by exact hasleep)
  obtain ⟨f1, f2, f3, f4, f5, f6, f7, f8⟩ := postButton_fields env
    ({ st with
        buttonPressStartTime := env.now
        isLongPressing := true
        sleepPressStartTime := env.now
        isSleepPressing := true
        isEncoderPressed := true
        volumeAdjustedWhilePressed := false
        lastButtonState := false })
  obtain ⟨hbv, hbva, hble, hbe1, hbe2⟩ := postButton_boundary env
    ({ st with
        buttonPressStartTime := env.now
        isLongPressing := true
        sleepPressStartTime := env.now
        isSleepPressing := true
        isEncoderPressed := true
        volumeAdjustedWhilePressed := false
        lastButtonState := false })
    rfl (by exact hd)
  obtain ⟨m1, s1, t1, m2, s2, t2⟩ := postButton_events env
    ({ st with
        buttonPressStartTime := env.now
        isLongPressing := true
        sleepPressStartTime := env.now
        isSleepPressing := true
        isEncoderPressed := true
        volumeAdjustedWhilePressed := false
        lastButtonState := false })
  refine ⟨⟨?_, ?_, ?_, ?_, ?_, ?_⟩, ?_, ?_, ?_, ?_, ?_⟩
  · rw [hc1, f1]; exact hasleep
  · rw [hc1, f2]
  · rw [hc1, f3]
  · rw [hc1, f4]
  · rw [hc1, f5]
  · rw [hc1, f6]
  · rw [hc1]; exact hbv
  · rw [hc1]; exact hbva
  · rw [hc1]; exact hble
  · intro w
    rw [hc2]
    simp [hbe1 w, hbe2 w]
  · rw [hc2]; simp [t1, t2]

/-- C10: when every rotation during a hold happens against the volume boundary
(clockwise/decreasing at the minimum, counter-clockwise/increasing at the
maximum), the volume is unchanged, no volume intent fires, the
volume-adjusted flag is never set, and releasing before the mode-switch
threshold still fires the detection toggle. -/
theorem C10_boundary_rotation (e0 : TickEnv) (mid : List TickEnv) (er : TickEnv)
    (st0 : DeviceState) (v : Int)
    (hlast : st0.lastButtonState = true) (hasleep : st0.asleep = false)
    (hvol : st0.currentVolume = v)
    (hbtn0 : e0.button = false) (hlowmid : ∀ e ∈ mid, e.button = false)
    (hbtnr : er.button = true)
    (ht : ∀ e ∈ e0 :: mid ++ [er], e.now - e0.now < MODE_SWITCH_PRESS_DURATION)
    (hd : ∀ d ∈ decodes st0.lastEncoded ((e0 :: mid ++ [er]).map encOf),
      d = 0 ∨ (d = 1 ∧ v ≤ MIN_VOLUME) ∨ (d = -1 ∧ MAX_VOLUME ≤ v)) :
    Event.toggleDetection ∈ (runDevice (e0 :: mid ++ [er]) st0).2 ∧
    (∀ w, Event.setVol w ∉ (runDevice (e0 :: mid ++ [er]) st0).2) ∧
    (runDevice (e0 :: mid ++ [er]) st0).1.currentVolume = v := by
  -- the press tick
  have hd0 : decodeDir st0.lastEncoded (encOf e0) = 0 ∨
      (decodeDir st0.lastEncoded (encOf e0) = 1 ∧ st0.currentVolume ≤ MIN_VOLUME) ∨
      (decodeDir st0.lastEncoded (encOf e0) = -1 ∧ MAX_VOLUME ≤ st0.currentVolume) := by
    have := hd (decodeDir st0.lastEncoded (encOf e0)) (by simp [decodes])
    rw [hvol]
    exact this
  obtain ⟨hH1, hv1, hva1, hle1, hsv1, htg1⟩ :=
    loopTick_pressBoundary e0 st0 hlast hbtn0 hasleep hd0
  have hv1v : (loopTick e0 st0).1.currentVolume = v := by rw [hv1, hvol]
  rw [List.cons_append, runDevice_cons_awake e0 (mid ++ [er]) st0 hasleep]
  rw [runDevice_append mid [er] (loopTick e0 st0).1]
  -- the held middle ticks
  have hdmid : ∀ d ∈ decodes (loopTick e0 st0).1.lastEncoded (mid.map encOf),
      d = 0 ∨ (d = 1 ∧ v ≤ MIN_VOLUME) ∨ (d = -1 ∧ MAX_VOLUME ≤ v) := by
    rw [hle1]
    intro d hdm
    refine hd d ?_
    simp only [List.cons_append, List.map_cons, List.map_append, decodes, List.mem_cons]
    refine Or.inr ?_
    have h2 := decodes_append_prefix (encOf e0) (mid.map encOf) ([er].map encOf) d hdm
    rw [← List.map_append] at h2
    exact h2
  obtain ⟨hH2, hv2, hva2, hsv2, htg2⟩ :=
    run_hold_boundary mid (loopTick e0 st0).1 e0.now v hH1 hva1 hv1v hlowmid
      (fun e he => ht e (by simp [he])) hdmid
  -- the release tick
  obtain ⟨htg3, hsv3, hv3⟩ := loopTick_releaseToggle er
    (runDevice mid (loopTick e0 st0).1).1 e0.now hH2 hbtnr hva2
    (ht er (by simp))
  have hrel : runDevice [er] (runDevice mid (loopTick e0 st0).1).1 =
      ((loopTick er (runDevice mid (loopTick e0 st0).1).1).1,
        (loopTick er (runDevice mid (loopTick e0 st0).1).1).2 ++ []) :=
    runDevice_cons_awake er [] _ hH2.1
  rw [hrel]
  refine ⟨?_, ?_, ?_⟩
  · simp only [List.mem_append, List.append_nil]
    tauto
  · intro w hh
    simp only [List.mem_append, List.append_nil] at hh
    rcases hh with hh | hh | hh
    · exact hsv1 w hh
    · exact hsv2 w hh
    · exact hsv3 w hh
  · rw [hv3, hv2]

/-- C10 witness: volume at the minimum 0, two clockwise (volume-decreasing)
samples confirm a rotation while pressed at 50/70 ms, release at 100 ms: the
toggle still fires, no volume intent, volume still 0. -/
theorem C10_boundary_rotation_witness :
    Event.toggleDetection ∈
      (runDevice (mkTick 0 false false false ::
        [mkTick 50 false true false, mkTick 70 false true true] ++
        [mkTick 100 true true true]) { initialState with currentVolume := 0 }).2 ∧
    (∀ w, Event.setVol w ∉
      (runDevice (mkTick 0 false false false ::
        [mkTick 50 false true false, mkTick 70 false true true] ++
        [mkTick 100 true true true]) { initialState with currentVolume := 0 }).2) ∧
    (runDevice (mkTick 0 false false false ::
        [mkTick 50 false true false, mkTick 70 false true true] ++
        [mkTick 100 true true true]) { initialState with currentVolume := 0 }).1.currentVolume = 0 := by
  exact C10_boundary_rotation (mkTick 0 false false false)
    [mkTick 50 false true false, mkTick 70 false true true]
    (mkTick 100 true true true) { initialState with currentVolume := 0 } 0
    rfl rfl rfl rfl
    (by intro e he; fin_cases he <;> rfl)
    rfl
    (by intro e he; fin_cases he <;> decide)
    (by intro d hd; fin_cases hd <;> decide)

end Huemelody
